import Mathlib

/-!
Verification development for the payb-ai chat relay.

This file shallowly embeds the relevant parts of the repository's Python
source in Lean 4 and proves properties of the embedding:

* `app/core/utils/conversation_manager.py` — the conversation store
  (`Conversation`, `ConversationManager`);
* `app/core/utils/agent_manager.py` — the agent configuration manager;
* `app/core/utils/provider_manager.py` and `app/api/ai_routes.py` — the
  per-channel provider routing table and the provider status route;
* `app/core/providers/ollama.py` — the Ollama adapter's message
  preprocessing;
* `app/core/chat_processor.py` — the chat orchestrator
  (`ChatProcessor.process_message`, `ChatProcessor._execute_tools`).

Python dictionaries are modelled as insertion-ordered association lists,
Python exceptions as `Except String`, and external effects (the JSON parser,
the clock, network responses of a provider) as explicit inputs.  Message
`timestamp` fields are informational in the source (order is list order) and
carry no logic, so they are not modelled.
-/

/-- Python dict read: `d.get(k)` / `d[k]` lookup on an insertion-ordered
association list. -/
def dictGet {α : Type} (d : List (String × α)) (k : String) : Option α :=
  match d with
  | [] => none
  | (k', v) :: rest => if k' = k then some v else dictGet rest k

/-- Python dict write: `d[k] = v` on an insertion-ordered association list
(updates in place if the key exists, else appends). -/
def dictInsert {α : Type} (d : List (String × α)) (k : String) (v : α) :
    List (String × α) :=
  match d with
  | [] => [(k, v)]
  | (k', v') :: rest =>
      if k' = k then (k, v) :: rest else (k', v') :: dictInsert rest k v

/-- Python list slice `xs[-n:]`: the last `n` elements, except that `n = 0`
yields the whole list (`xs[-0:]` is `xs[0:]` in Python). -/
def takeLastPy {α : Type} (xs : List α) (n : Nat) : List α :=
  if n = 0 then xs else xs.drop (xs.length - n)

/-- Message roles: the closed enum `system | user | assistant | tool` used by
`app/core/utils/conversation_manager.py`. -/
inductive Role where
  | system
  | user
  | assistant
  | tool
deriving DecidableEq, Repr, BEq

/-- One turn in a conversation (`Message` in
`app/core/utils/conversation_manager.py`); the `timestamp` and `metadata`
fields of the source are informational only and not modelled. -/
structure Message where
  role : Role
  content : String
deriving DecidableEq, Repr, BEq

/-- A channel-scoped conversation (`Conversation` in
`app/core/utils/conversation_manager.py`). -/
structure Conversation where
  id : String
  user_id : String
  channel_id : String
  provider : String
  model : String
  messages : List Message
deriving DecidableEq, Repr

/-- `Conversation.get_llm_context`: slice the last `max_messages` messages
(`self.messages[-max_messages:]`), then keep only those whose role is `user`
or `assistant`. -/
def Conversation.get_llm_context (c : Conversation) (max_messages : Nat) :
    List Message :=
  (takeLastPy c.messages max_messages).filter
    (fun m => m.role == Role.user || m.role == Role.assistant)

/-- `Conversation.add_message`: append a message (the source also stamps the
current time and advances `updated_at`, which carry no logic here). -/
def Conversation.add_message (c : Conversation) (role : Role)
    (content : String) : Conversation :=
  { c with messages := c.messages ++ [⟨role, content⟩] }

/-- `Conversation.get_message_count`. -/
def Conversation.get_message_count (c : Conversation) : Nat :=
  c.messages.length

/-- The conversation store (`ConversationManager`): a dict keyed by channel
id plus the configured per-conversation cap.  Redis persistence degrades to
in-memory operation and is not modelled (`_save_conversations_sync` is a
no-op without a backend). -/
structure ConversationManager where
  conversations : List (String × Conversation)
  max_messages_per_conversation : Nat
deriving DecidableEq, Repr

/-- `ConversationManager._generate_conversation_id`; the timestamp string is
an explicit input (the source reads the clock). -/
def ConversationManager.generate_conversation_id (user_id channel_id ts : String) :
    String :=
  user_id ++ "_" ++ channel_id ++ "_" ++ ts

/-- `ConversationManager.get_or_create_conversation`: conversations are keyed
by `channel_id` only; a fresh conversation is created under user `"shared"`. -/
def ConversationManager.get_or_create_conversation (m : ConversationManager)
    (_user_id channel_id provider model ts : String) :
    ConversationManager × Conversation :=
  match dictGet m.conversations channel_id with
  | some c => (m, c)
  | none =>
      let c : Conversation :=
        { id := ConversationManager.generate_conversation_id "shared" channel_id ts
          user_id := "shared"
          channel_id := channel_id
          provider := provider
          model := model
          messages := [] }
      ({ m with conversations := dictInsert m.conversations channel_id c }, c)

/-- `ConversationManager._trim_conversation`: when the message count exceeds
the cap, keep all `system` messages followed by the last
`max_messages_per_conversation` non-system messages
(`other_messages[-cap:]`). -/
def ConversationManager.trim_conversation (m : ConversationManager)
    (c : Conversation) : Conversation :=
  if c.messages.length > m.max_messages_per_conversation then
    let system_messages := c.messages.filter (fun msg => msg.role == Role.system)
    let other_messages := c.messages.filter (fun msg => !(msg.role == Role.system))
    let recent_messages := takeLastPy other_messages m.max_messages_per_conversation
    { c with messages := system_messages ++ recent_messages }
  else c

/-- `ConversationManager.add_user_message`: create the channel's conversation
if absent, append the user-tagged content as role `user`, trim if the count
exceeds the cap, and store the result. -/
def ConversationManager.add_user_message (m : ConversationManager)
    (user_id channel_id content provider model ts : String) :
    ConversationManager × Conversation :=
  let (m1, c) := m.get_or_create_conversation user_id channel_id provider model ts
  let user_tagged_content := "[" ++ user_id ++ "]: " ++ content
  let c1 := c.add_message Role.user user_tagged_content
  let c2 :=
    if c1.get_message_count > m1.max_messages_per_conversation then
      m1.trim_conversation c1
    else c1
  ({ m1 with conversations := dictInsert m1.conversations channel_id c2 }, c2)

/-- `ConversationManager.add_ai_response`: append role `assistant` to an
existing conversation (trimming if over the cap); `none` if the channel has
no conversation. -/
def ConversationManager.add_ai_response (m : ConversationManager)
    (_user_id channel_id content : String) :
    ConversationManager × Option Conversation :=
  match dictGet m.conversations channel_id with
  | some c =>
      let c1 := c.add_message Role.assistant content
      let c2 :=
        if c1.get_message_count > m.max_messages_per_conversation then
          m.trim_conversation c1
        else c1
      ({ m with conversations := dictInsert m.conversations channel_id c2 }, some c2)
  | none => (m, none)

/-- `ConversationManager.add_tool_result`: append role `tool` to an existing
conversation; `none` if the channel has no conversation.  The source performs
no trim check here. -/
def ConversationManager.add_tool_result (m : ConversationManager)
    (_user_id channel_id tool_name tool_result : String) :
    ConversationManager × Option Conversation :=
  match dictGet m.conversations channel_id with
  | some c =>
      let tool_content := "Tool " ++ tool_name ++ " executed: " ++ tool_result
      let c1 := c.add_message Role.tool tool_content
      ({ m with conversations := dictInsert m.conversations channel_id c1 }, some c1)
  | none => (m, none)

/-- `ConversationManager.get_conversation_context`: the LLM view of the
channel's conversation; `max_messages` defaults (`None` in the source) to the
configured cap. -/
def ConversationManager.get_conversation_context (m : ConversationManager)
    (_user_id channel_id : String) (max_messages : Option Nat) : List Message :=
  match dictGet m.conversations channel_id with
  | some c => c.get_llm_context (max_messages.getD m.max_messages_per_conversation)
  | none => []

/-- `ConversationManager.clear_conversation`: delete the channel's entry;
returns whether one existed. -/
def ConversationManager.clear_conversation (m : ConversationManager)
    (_user_id channel_id : String) : ConversationManager × Bool :=
  match dictGet m.conversations channel_id with
  | some _ =>
      ({ m with conversations :=
          m.conversations.filter (fun kv => !(kv.fst == channel_id)) }, true)
  | none => (m, false)

/-- A Python value as it appears in the dictionaries the orchestrator and
tools pass around: `None`, booleans, strings, and nested dicts. -/
inductive PyVal where
  | none
  | bool (b : Bool)
  | str (s : String)
  | list (items : List PyVal)
  | dict (entries : List (String × PyVal))

mutual

/-- Decidable equality of `PyVal`s (the automatic derivation does not handle
the nesting through `List`). -/
def PyVal.decEq : (a b : PyVal) → Decidable (a = b)
  | .none, .none => isTrue rfl
  | .none, .bool _ => isFalse (fun h => PyVal.noConfusion h)
  | .none, .str _ => isFalse (fun h => PyVal.noConfusion h)
  | .none, .list _ => isFalse (fun h => PyVal.noConfusion h)
  | .none, .dict _ => isFalse (fun h => PyVal.noConfusion h)
  | .bool _, .none => isFalse (fun h => PyVal.noConfusion h)
  | .bool x, .bool y =>
      match Bool.decEq x y with
      | isTrue h => isTrue (h ▸ rfl)
      | isFalse h => isFalse (fun hh => h (PyVal.bool.inj hh))
  | .bool _, .str _ => isFalse (fun h => PyVal.noConfusion h)
  | .bool _, .list _ => isFalse (fun h => PyVal.noConfusion h)
  | .bool _, .dict _ => isFalse (fun h => PyVal.noConfusion h)
  | .str _, .none => isFalse (fun h => PyVal.noConfusion h)
  | .str _, .bool _ => isFalse (fun h => PyVal.noConfusion h)
  | .str x, .str y =>
      match String.decEq x y with
      | isTrue h => isTrue (h ▸ rfl)
      | isFalse h => isFalse (fun hh => h (PyVal.str.inj hh))
  | .str _, .list _ => isFalse (fun h => PyVal.noConfusion h)
  | .str _, .dict _ => isFalse (fun h => PyVal.noConfusion h)
  | .list _, .none => isFalse (fun h => PyVal.noConfusion h)
  | .list _, .bool _ => isFalse (fun h => PyVal.noConfusion h)
  | .list _, .str _ => isFalse (fun h => PyVal.noConfusion h)
  | .list x, .list y =>
      match PyVal.decEqItems x y with
      | isTrue h => isTrue (h ▸ rfl)
      | isFalse h => isFalse (fun hh => h (PyVal.list.inj hh))
  | .list _, .dict _ => isFalse (fun h => PyVal.noConfusion h)
  | .dict _, .none => isFalse (fun h => PyVal.noConfusion h)
  | .dict _, .bool _ => isFalse (fun h => PyVal.noConfusion h)
  | .dict _, .str _ => isFalse (fun h => PyVal.noConfusion h)
  | .dict _, .list _ => isFalse (fun h => PyVal.noConfusion h)
  | .dict x, .dict y =>
      match PyVal.decEqEntries x y with
      | isTrue h => isTrue (h ▸ rfl)
      | isFalse h => isFalse (fun hh => h (PyVal.dict.inj hh))

/-- Decidable equality of `PyVal` lists. -/
def PyVal.decEqItems : (a b : List PyVal) → Decidable (a = b)
  | [], [] => isTrue rfl
  | [], _ :: _ => isFalse (fun h => List.noConfusion h)
  | _ :: _, [] => isFalse (fun h => List.noConfusion h)
  | v1 :: r1, v2 :: r2 =>
      match PyVal.decEq v1 v2 with
      | isFalse h => isFalse (fun hh => h (List.head_eq_of_cons_eq hh))
      | isTrue hv =>
          match PyVal.decEqItems r1 r2 with
          | isFalse h => isFalse (fun hh => h (List.tail_eq_of_cons_eq hh))
          | isTrue hr => isTrue (by rw [hv, hr])

/-- Decidable equality of `PyVal` dict entry lists. -/
def PyVal.decEqEntries :
    (a b : List (String × PyVal)) → Decidable (a = b)
  | [], [] => isTrue rfl
  | [], _ :: _ => isFalse (fun h => List.noConfusion h)
  | _ :: _, [] => isFalse (fun h => List.noConfusion h)
  | (k1, v1) :: r1, (k2, v2) :: r2 =>
      match String.decEq k1 k2 with
      | isFalse h =>
          isFalse (fun hh => h (congrArg Prod.fst (List.head_eq_of_cons_eq hh)))
      | isTrue hk =>
          match PyVal.decEq v1 v2 with
          | isFalse h =>
              isFalse (fun hh => h (congrArg Prod.snd (List.head_eq_of_cons_eq hh)))
          | isTrue hv =>
              match PyVal.decEqEntries r1 r2 with
              | isFalse h => isFalse (fun hh => h (List.tail_eq_of_cons_eq hh))
              | isTrue hr => isTrue (by rw [hk, hv, hr])

end

instance : DecidableEq PyVal := PyVal.decEq

/-- A Python dictionary of `PyVal`s. -/
abbrev PyDict := List (String × PyVal)

/-- Python truthiness of a `PyVal` (`None`/`False`/`""`/empty dict are
falsy). -/
def PyVal.truthy : PyVal → Bool
  | .none => false
  | .bool b => b
  | .str s => !(s == "")
  | .list l => !l.isEmpty
  | .dict d => !d.isEmpty

/-- `d.get(k, default)` on a `PyDict`. -/
def pyGetD (d : PyDict) (k : String) (dflt : PyVal) : PyVal :=
  (dictGet d k).getD dflt

mutual

/-- A model of Python's `json.dumps` on the values the orchestrator
serializes (used for tool-result persistence; the claims do not depend on
the exact text, only on it being a function of the value). -/
def pyJsonDumps : PyVal → String
  | .none => "null"
  | .bool true => "true"
  | .bool false => "false"
  | .str s => "\"" ++ s ++ "\""
  | .list l => "[" ++ pyJsonDumpsItems l ++ "]"
  | .dict d => "\x7b" ++ pyJsonDumpsEntries d ++ "\x7d"

/-- `json.dumps` helper for list items. -/
def pyJsonDumpsItems : List PyVal → String
  | [] => ""
  | [v] => pyJsonDumps v
  | v :: rest => pyJsonDumps v ++ ", " ++ pyJsonDumpsItems rest

/-- `json.dumps` helper for dict entries. -/
def pyJsonDumpsEntries : List (String × PyVal) → String
  | [] => ""
  | [(k, v)] => "\"" ++ k ++ "\": " ++ pyJsonDumps v
  | (k, v) :: rest =>
      "\"" ++ k ++ "\": " ++ pyJsonDumps v ++ ", " ++ pyJsonDumpsEntries rest

end

/-- One agent entry of `agents.json` (`agents.<id>` in the configuration
file read by `app/core/utils/agent_manager.py`): its `tools` are
tool-category names. -/
structure AgentInfo where
  name : String
  description : String
  system_prompt : String
  tools : List String
deriving DecidableEq, Repr

/-- The parsed agent configuration file (`agents.json`). -/
structure AgentsConfig where
  agents : List (String × AgentInfo)
  tool_categories : List (String × List String)
  default_agent : Option String
deriving DecidableEq, Repr

/-- The fallback configuration `AgentManager._load_agents_config` returns on
any read or parse failure. -/
def defaultAgentsConfig : AgentsConfig :=
  { agents := [], tool_categories := [], default_agent := some "general" }

/-- `AgentManager._load_agents_config`
(`app/core/utils/agent_manager.py`): the file read and JSON parse are
external I/O, modelled as an `Except` input; the method catches every
exception internally and returns the default configuration, so it never
raises. -/
def load_agents_config (file : Except String AgentsConfig) : AgentsConfig :=
  match file with
  | .ok c => c
  | .error _ => defaultAgentsConfig

/-- The agent configuration manager
(`AgentManager` in `app/core/utils/agent_manager.py`). -/
structure AgentManager where
  agents_config : AgentsConfig
  default_agent : String
deriving DecidableEq, Repr

/-- `AgentManager.__init__`. -/
def AgentManager.init (file : Except String AgentsConfig) : AgentManager :=
  let c := load_agents_config file
  { agents_config := c, default_agent := c.default_agent.getD "general" }

/-- `AgentManager.reload_agents_config`: re-reads the file.  Because
`_load_agents_config` catches failures internally (returning the default
configuration), the `try` body never raises: the method always installs
`_load_agents_config`'s result and returns `True`; its `except` branch (which
would restore the old configuration and return `False`) is unreachable. -/
def AgentManager.reload_agents_config (_am : AgentManager)
    (file : Except String AgentsConfig) : AgentManager × Bool :=
  let c := load_agents_config file
  ({ agents_config := c, default_agent := c.default_agent.getD "general" }, true)

/-- `AgentManager.get_agent_info` (`{}` for an unknown agent is modelled as
`none`). -/
def AgentManager.get_agent_info (am : AgentManager) (agent_id : String) :
    Option AgentInfo :=
  dictGet am.agents_config.agents agent_id

/-- `AgentManager.get_agent_system_prompt`. -/
def AgentManager.get_agent_system_prompt (am : AgentManager)
    (agent_id : String) : String :=
  match am.get_agent_info agent_id with
  | some info => info.system_prompt
  | none => ""

/-- `AgentManager.validate_agent`. -/
def AgentManager.validate_agent (am : AgentManager) (agent_id : String) : Bool :=
  (dictGet am.agents_config.agents agent_id).isSome

/-- `AgentManager.get_all_agents_info`. -/
def AgentManager.get_all_agents_info (am : AgentManager) :
    List (String × AgentInfo) :=
  am.agents_config.agents

/-- `AgentManager.get_agent_tools`: expand the agent's tool categories via
the configuration's category table. -/
def AgentManager.get_agent_tools (am : AgentManager) (agent_id : String) :
    List String :=
  match am.get_agent_info agent_id with
  | none => []
  | some info =>
      info.tools.foldl
        (fun all_tools category =>
          all_tools ++ ((dictGet am.agents_config.tool_categories category).getD []))
        []

/-- The per-(user, channel) agent preference table
(`AgentManagerTool._user_agents` in `app/core/tools/agent_manager.py`),
keyed by `"<user_id>:<channel_id>"`. -/
abbrev UserAgents := List (String × String)

/-- `AgentManagerTool.get_user_agent`: the stored preference, defaulting to
`"general"`. -/
def get_user_agent (ua : UserAgents) (user_id channel_id : String) : String :=
  (dictGet ua (user_id ++ ":" ++ channel_id)).getD "general"

/-- `AgentManager.get_user_system_prompt`: resolve the user's current agent
via the agent tool, then that agent's system prompt (the `except` fallback to
the default agent is unreachable here: the lookups cannot raise). -/
def AgentManager.get_user_system_prompt (am : AgentManager) (ua : UserAgents)
    (user_id channel_id : String) : String :=
  am.get_agent_system_prompt (get_user_agent ua user_id channel_id)

/-- `AgentManager.get_user_tools`: resolve the user's current agent, then its
expanded tool list. -/
def AgentManager.get_user_tools (am : AgentManager) (ua : UserAgents)
    (user_id channel_id : String) : List String :=
  am.get_agent_tools (get_user_agent ua user_id channel_id)

/-- The channel → provider routing table
(`ProviderManager` in `app/core/utils/provider_manager.py`). -/
structure ProviderManager where
  default_provider : String
  channel_providers : List (String × String)
deriving DecidableEq, Repr

/-- `ProviderManager.set_provider_for_channel`: validates the lowercased name
against the fixed provider set before accepting (provider instantiation
cannot fail for these two names). -/
def ProviderManager.set_provider_for_channel (pm : ProviderManager)
    (channel_id provider_name : String) : ProviderManager × Bool :=
  if provider_name == "openai" || provider_name == "ollama" then
    ({ pm with channel_providers :=
        dictInsert pm.channel_providers channel_id provider_name }, true)
  else (pm, false)

/-- `ProviderManager.get_channel_provider_name`. -/
def ProviderManager.get_channel_provider_name (pm : ProviderManager)
    (channel_id : String) : String :=
  (dictGet pm.channel_providers channel_id).getD pm.default_provider

/-- `ProviderManager.get_all_channel_providers`. -/
def ProviderManager.get_all_channel_providers (pm : ProviderManager) :
    List (String × String) :=
  pm.channel_providers

/-- `ProviderManager.clear_channel_provider`. -/
def ProviderManager.clear_channel_provider (pm : ProviderManager)
    (channel_id : String) : ProviderManager :=
  { pm with channel_providers :=
      pm.channel_providers.filter (fun kv => !(kv.fst == channel_id)) }

/-- The response of `GET /api/ai/provider/status/{channel_id}`
(`ProviderStatusResponse` in `app/api/ai_routes.py`). -/
structure ProviderStatusResponse where
  channel_id : String
  current_provider : String
  default_provider : String
  available_providers : List String
  is_custom : Bool
deriving DecidableEq, Repr

/-- `get_provider_status` (`app/api/ai_routes.py`): `is_custom` is whether
the channel has an entry in the routing table. -/
def get_provider_status (pm : ProviderManager) (channel_id : String) :
    ProviderStatusResponse :=
  { channel_id := channel_id
    current_provider := pm.get_channel_provider_name channel_id
    default_provider := pm.default_provider
    available_providers := ["openai", "ollama"]
    is_custom := (dictGet pm.channel_providers channel_id).isSome }

/-- `d.get(k)` yielding a `PyVal` (`None` on a missing key). -/
def pyGet (d : PyDict) (k : String) : PyVal :=
  pyGetD d k PyVal.none

/-- `v.get(k)` on a value expected to be a dict; on the non-dict values that
cannot occur where this helper is used it yields `None` (Python would raise
`AttributeError`, but every use below is on a dict). -/
def PyVal.getKey : PyVal → String → PyVal
  | .dict d, k => pyGet d k
  | _, _ => .none

/-- `v[k]` subscript access: `KeyError` on a missing key, `TypeError` on a
non-dict, both modelled as `.error`. -/
def pyGetItem (v : PyVal) (k : String) : Except String PyVal :=
  match v with
  | .dict d =>
      match dictGet d k with
      | some x => Except.ok x
      | Option.none => Except.error ("KeyError: " ++ k)
  | _ => Except.error "TypeError: value is not subscriptable"

/-- Render a `PyVal` used where the source interpolates it into text
(f-strings); the exact rendering of non-string values carries no logic. -/
def PyVal.display : PyVal → String
  | .str s => s
  | v => pyJsonDumps v

/-- The Ollama adapter's in-place role remapping
(`OllamaProvider.chat_completion`, `app/core/providers/ollama.py` lines
28-30): every message whose `role` is `"system"` is rewritten to role
`"assistant"` before the request is built. -/
def ollama_preprocess_messages (messages : List PyDict) : List PyDict :=
  messages.map (fun msg =>
    if pyGet msg "role" = PyVal.str "system" then
      dictInsert msg "role" (PyVal.str "assistant")
    else msg)

/-- The request body `OllamaProvider.chat_completion` sends to
`POST <base_url>/api/chat`.  The numeric options (`temperature`,
`num_predict`) are floating-point pass-through configuration and carry no
logic, so they are not modelled. -/
structure OllamaRequest where
  model : String
  messages : List PyDict
  stream : Bool
  tools : Option (List PyDict)
deriving DecidableEq

/-- Assembly of the Ollama request body
(`app/core/providers/ollama.py` lines 28-45): the messages are the
preprocessed (system-remapped) messages, `stream` is `False`, and `tools` is
attached only when present. -/
def ollama_request_data (model : String) (messages : List PyDict)
    (tools : Option (List PyDict)) : OllamaRequest :=
  { model := model
    messages := ollama_preprocess_messages messages
    stream := false
    tools := tools }

/-- A `ToolResult` (`app/core/tools/base.py`): `success`, optional payload,
optional error text, optional metadata bag. -/
structure PyToolResult where
  success : Bool
  data : Option PyVal
  error : Option String
  metadata : Option PyDict

/-- `ToolResult.model_dump()` as a `PyVal` dict. -/
def PyToolResult.model_dump (r : PyToolResult) : PyVal :=
  .dict
    [("success", .bool r.success),
     ("data", r.data.getD .none),
     ("error", match r.error with | some e => .str e | Option.none => .none),
     ("metadata", match r.metadata with | some d => .dict d | Option.none => .none)]

/-- A registered tool (`BaseTool` in `app/core/tools/base.py`): its schema
fields, and `execute`, which receives the parsed keyword arguments; a raised
exception (including a `**`-splat failure on a non-mapping argument value) is
modelled as `.error`. -/
structure Tool where
  name : String
  description : String
  parameters : PyVal
  execute : PyVal → Except String PyToolResult

/-- `BaseTool.get_schema`. -/
def Tool.get_schema (t : Tool) : PyDict :=
  [("name", .str t.name),
   ("description", .str t.description),
   ("parameters", t.parameters)]

/-- The process-wide tool registry (`ToolRegistry._tools`): name → tool.
`get_tool` is `dictGet`. -/
abbrev ToolRegistry := List (String × Tool)

/-- `ToolRegistry.get_tool` under the orchestrator's use: the extracted tool
name may be any value; a non-string name is never a key of the registry
dict, so lookup yields `None`. -/
def toolRegistryGet (registry : ToolRegistry) : PyVal → Option Tool
  | .str s => dictGet registry s
  | _ => Option.none

/-- A provider-native tool call as the orchestrator's duck typing
distinguishes them (`ChatProcessor._execute_tools`):
`objDirect` has `.name`/`.arguments` attributes, `objFunc` has a nested
`.function` attribute, `dictCall` is a plain dict; `id` attributes may be
absent. -/
inductive ToolCallShape where
  | objDirect (name : String) (arguments : String) (id : Option String)
  | objFunc (fname : String) (farguments : String) (id : Option String)
  | dictCall (entries : PyDict)

/-- The Python-stdlib JSON parser is external; a model run supplies it as a
function (an `.error` models a raised `json.JSONDecodeError`). -/
abbrev JsonLoads := String → Except String PyVal

/-- `json.loads(v)` where `v` must be a string (`TypeError` otherwise). -/
def pyLoadsArg (jsonLoads : JsonLoads) (v : PyVal) : Except String PyVal :=
  match v with
  | .str s => jsonLoads s
  | _ => Except.error "TypeError: the JSON object must be str"

/-- The `(tool_name, tool_args, tool_call_id)` extraction of
`ChatProcessor._execute_tools` (lines 249-282), per provider name and
tool-call shape; `.error` models an exception raised inside the `try`
(caught by the loop's outer `except`).  `nResults` is `len(results)` when
the call is processed. -/
def parse_tool_call (jsonLoads : JsonLoads) (provider_name : String)
    (tc : ToolCallShape) (nResults : Nat) :
    Except String (PyVal × PyVal × PyVal) :=
  if provider_name == "openai" then
    match tc with
    | .objDirect name arguments id => do
        let args ← jsonLoads arguments
        Except.ok (.str name, args, .str (id.getD ("call_" ++ toString nResults)))
    | .objFunc fname farguments id => do
        let args ← jsonLoads farguments
        Except.ok (.str fname, args, .str (id.getD ("call_" ++ toString nResults)))
    | .dictCall d => do
        let fn ← pyGetItem (.dict d) "function"
        let nm ← pyGetItem fn "name"
        let argsv ← pyGetItem fn "arguments"
        let args ← pyLoadsArg jsonLoads argsv
        Except.ok (nm, args, pyGetD d "id" (.str ("call_" ++ toString nResults)))
  else if provider_name == "ollama" then
    match tc with
    | .objFunc fname farguments id => do
        let args ← jsonLoads farguments
        Except.ok (.str fname, args, .str (id.getD ("call_" ++ toString nResults)))
    | .objDirect _ _ _ =>
        Except.error "TypeError: tool call object is not subscriptable"
    | .dictCall d => do
        let fn ← pyGetItem (.dict d) "function"
        let nm ← pyGetItem fn "name"
        let argsv ← pyGetItem fn "arguments"
        let args ← pyLoadsArg jsonLoads argsv
        Except.ok (nm, args, pyGetD d "id" (.str ("call_" ++ toString nResults)))
  else
    match tc with
    | .dictCall d => do
        let fnv := pyGetD d "function" (.dict [])
        match fnv with
        | .dict fd => do
            let nm := pyGetD fd "name" (pyGetD d "name" (.str ""))
            let argsv := pyGetD fd "arguments" (.str "\x7b\x7d")
            let args ← pyLoadsArg jsonLoads argsv
            Except.ok (nm, args, pyGetD d "id" (.str ("call_" ++ toString nResults)))
        | _ => Except.error "AttributeError: value has no attribute get"
    | _ => Except.error "AttributeError: tool call object has no attribute get"

/-- The tool-call id used by the outer `except` handler of
`ChatProcessor._execute_tools` (line 304): the call's `id` attribute when it
has one, else `call_<len(results)>`. -/
def exceptHandlerId (tc : ToolCallShape) (nResults : Nat) : PyVal :=
  match tc with
  | .objDirect _ _ (some i) => .str i
  | .objFunc _ _ (some i) => .str i
  | _ => .str ("call_" ++ toString nResults)

/-- One iteration of the `ChatProcessor._execute_tools` loop
(lines 249-307), acting on the `results` accumulator: a parse failure
appends an error entry (tool name `"unknown"`), a missing tool or an
execution exception is skipped (`continue`, no entry), and a successful
execution appends `(tool_call_id, tool_name, result.model_dump())`. -/
def execute_tools_step (registry : ToolRegistry) (jsonLoads : JsonLoads)
    (provider_name : String) (tc : ToolCallShape) (results : List PyDict) :
    List PyDict :=
  match parse_tool_call jsonLoads provider_name tc results.length with
  | Except.error e =>
      results ++
        [[("tool_call_id", exceptHandlerId tc results.length),
          ("tool_name", .str "unknown"),
          ("result", .dict
            [("success", .bool false),
             ("error", .str ("Tool call parsing error: " ++ e))])]]
  | Except.ok (nm, args, id) =>
      match toolRegistryGet registry nm with
      | some tool =>
          match tool.execute args with
          | Except.ok r =>
              results ++
                [[("tool_call_id", id),
                  ("tool_name", nm),
                  ("result", r.model_dump)]]
          | Except.error _ => results
      | Option.none => results

/-- The loop of `ChatProcessor._execute_tools` (lines 246-309). -/
def execute_tools_loop (registry : ToolRegistry) (jsonLoads : JsonLoads)
    (provider_name : String) :
    List ToolCallShape → List PyDict → List PyDict
  | [], results => results
  | tc :: rest, results =>
      execute_tools_loop registry jsonLoads provider_name rest
        (execute_tools_step registry jsonLoads provider_name tc results)

/-- `ChatProcessor._execute_tools`. -/
def execute_tools (registry : ToolRegistry) (jsonLoads : JsonLoads)
    (provider_name : String) (tool_calls : List ToolCallShape) : List PyDict :=
  execute_tools_loop registry jsonLoads provider_name tool_calls []

/-- Token usage (`UsageInfo` in `app/core/providers/models.py`). -/
structure UsageInfo where
  prompt_tokens : Nat
  completion_tokens : Nat
  total_tokens : Nat
deriving DecidableEq, Repr

/-- A normalized provider response (`ChatCompletionResult` in
`app/core/providers/models.py`); `tool_calls = None` and `tool_calls = []`
are both falsy in the orchestrator's check and modelled as the empty list. -/
structure ChatCompletionResult where
  content : String
  model : String
  usage : UsageInfo
  tool_calls : List ToolCallShape

/-- A provider adapter instance as the orchestrator sees it: its
availability flag, current model, and its network chat endpoint (external,
supplied as a function of the request; `.error` models a raised provider
exception). -/
structure Provider where
  is_available : Bool
  model : String
  chat_completion : List PyDict → Option (List PyDict) →
    Except String ChatCompletionResult

/-- The configuration fields of `app/config.py` that the orchestrator
reads. -/
structure Settings where
  ai_provider : String
  max_messages_per_conversation : Nat

/-- The process-global mutable state the orchestrator reads and writes:
the conversation store, the agent preference table of the
`AgentManagerTool` singleton, the agent configuration manager, and the
channel → provider routing table (touched only by the HTTP provider
routes). -/
structure World where
  conv : ConversationManager
  user_agents : UserAgents
  am : AgentManager
  pm : ProviderManager

/-- A `ChatProcessor` instance (`app/core/chat_processor.py`): the
discovered provider instances (the `"none"` placeholder maps to `None`),
the instance-local current provider name, and the settings. -/
structure ChatProcessor where
  providers : List (String × Option Provider)
  current_provider : String
  settings : Settings

/-- `ChatProcessor.__init__` (lines 46-71): provider discovery scans the
filesystem and is external, supplied as the `discovered` list.  With no
providers, a `"none" → None` placeholder is installed; otherwise, if the
configured provider is absent or unavailable, the first available provider
is chosen (the configured name is kept when none is available). -/
def ChatProcessor.init (settings : Settings)
    (discovered : List (String × Provider)) : ChatProcessor :=
  let providers : List (String × Option Provider) :=
    discovered.map (fun np => (np.fst, some np.snd))
  if discovered.isEmpty then
    { providers := [("none", Option.none)]
      current_provider := "none"
      settings := settings }
  else
    let configured_bad :=
      match dictGet providers settings.ai_provider with
      | some (some p) => !p.is_available
      | _ => true
    let current :=
      if configured_bad then
        match discovered.find? (fun np => np.snd.is_available) with
        | some np => np.fst
        | Option.none => settings.ai_provider
      else settings.ai_provider
    { providers := providers, current_provider := current, settings := settings }

/-- `get_chat_processor` (line 346): constructs a NEW `ChatProcessor` on
every call (the module-level singleton is commented out in the source), so
instance state such as `current_provider` does not survive across calls. -/
def get_chat_processor (settings : Settings)
    (discovered : List (String × Provider)) : ChatProcessor :=
  ChatProcessor.init settings discovered

/-- Role enum rendered as the string the store's messages carry into the
prepared LLM message dicts. -/
def Role.toStr : Role → String
  | .system => "system"
  | .user => "user"
  | .assistant => "assistant"
  | .tool => "tool"

/-- `ChatProcessor._prepare_messages` (lines 311-330): optional system
prompt (when the resolved prompt is non-empty), the last
`max_messages_per_conversation` history entries, then the incoming user
message. -/
def ChatProcessor.prepare_messages (cp : ChatProcessor) (am : AgentManager)
    (ua : UserAgents) (message : String) (conversation_history : List Message)
    (user_id channel_id : String) : List PyDict :=
  let system_message := am.get_user_system_prompt ua user_id channel_id
  let sys : List PyDict :=
    if system_message == "" then []
    else [[("role", .str "system"), ("content", .str system_message)]]
  let hist : List PyDict :=
    (takeLastPy conversation_history cp.settings.max_messages_per_conversation).map
      (fun m => [("role", .str m.role.toStr), ("content", .str m.content)])
  sys ++ hist ++ [[("role", .str "user"), ("content", .str message)]]

/-- The switch-directive scan of `ChatProcessor.process_message`
(lines 136-161): for each tool-result entry, read
`tool_result.get("metadata", \x7b\x7d)` and act on `agent_switch` /
`provider_switch` keys.  An `agent_switch` writes the
`AgentManagerTool._user_agents` preference (`_update_conversation_agent`); a
`provider_switch` naming a known, available provider updates the instance's
`current_provider` (and the provider's model when `new_model` is given). -/
def applySwitchDirective (acc : ChatProcessor × UserAgents)
    (user_id channel_id : String) (tr : PyDict) :
    ChatProcessor × UserAgents :=
  let md := pyGetD tr "metadata" (.dict [])
  let acc1 : ChatProcessor × UserAgents :=
    if (md.getKey "agent_switch").truthy then
      let new_agent_id := md.getKey "new_agent_id"
      if new_agent_id.truthy then
        (acc.fst,
         dictInsert acc.snd (user_id ++ ":" ++ channel_id)
           new_agent_id.display)
      else acc
    else acc
  if (md.getKey "provider_switch").truthy then
    let new_provider := md.getKey "new_provider"
    let new_model := md.getKey "new_model"
    match new_provider with
    | .str np =>
        if np == "" then acc1
        else
          match dictGet acc1.fst.providers np with
          | some (some p) =>
              if p.is_available then
                let cp1 := { acc1.fst with current_provider := np }
                let switched : Option Provider :=
                  some { p with model := new_model.display }
                let prov2 := dictInsert cp1.providers np switched
                let cp2 :=
                  if new_model.truthy then { cp1 with providers := prov2 }
                  else cp1
                (cp2, acc1.snd)
              else acc1
          | _ => acc1
    | _ => acc1
  else acc1

/-- The fold of `applySwitchDirective` over the whole tool-result batch
(the `for tool_result in tool_results` loop at lines 137-161). -/
def applySwitchDirectives (cp : ChatProcessor) (ua : UserAgents)
    (user_id channel_id : String) (tool_results : List PyDict) :
    ChatProcessor × UserAgents :=
  tool_results.foldl
    (fun acc tr => applySwitchDirective acc user_id channel_id tr)
    (cp, ua)

/-- The tool-result persistence loop of `ChatProcessor.process_message`
(lines 163-170): each entry's `tool_name` and JSON-dumped `result` are
appended to the store as a `tool` message. -/
def persistToolResults (m : ConversationManager) (user_id channel_id : String)
    (tool_results : List PyDict) : ConversationManager :=
  tool_results.foldl
    (fun cm tr =>
      (cm.add_tool_result user_id channel_id
        (pyGet tr "tool_name").display
        (pyJsonDumps (pyGet tr "result"))).fst)
    m

/-- The `tool_calls` field of the assistant message the orchestrator rebuilds
before the redispatch (lines 175-185), for the tool call at index `i`: the
attribute accesses `tool_call.name` / `tool_call.function.name` raise
`AttributeError` on a plain dict. -/
def rebuildToolCallEntry (i : Nat) (tc : ToolCallShape) : Except String PyVal :=
  match tc with
  | .objDirect name arguments id =>
      Except.ok (.dict
        [("id", .str (id.getD ("call_" ++ toString i))),
         ("type", .str "function"),
         ("function", .dict
           [("name", .str name), ("arguments", .str arguments)])])
  | .objFunc fname farguments id =>
      Except.ok (.dict
        [("id", .str (id.getD ("call_" ++ toString i))),
         ("type", .str "function"),
         ("function", .dict
           [("name", .str fname), ("arguments", .str farguments)])])
  | .dictCall _ =>
      Except.error "AttributeError: dict object has no attribute function"

/-- The enumerated rebuild of all `tool_calls` entries (lines 175-185). -/
def rebuildToolCallEntries (i : Nat) :
    List ToolCallShape → Except String (List PyVal)
  | [] => Except.ok []
  | tc :: rest => do
      let e ← rebuildToolCallEntry i tc
      let es ← rebuildToolCallEntries (i + 1) rest
      Except.ok (e :: es)

/-- The message-list extension before the redispatch (lines 172-193): the
assistant message carrying the rebuilt `tool_calls`, then one `tool` message
per tool-result entry. -/
def rebuildMessages (messages : List PyDict) (content : String)
    (tool_calls : List ToolCallShape) (tool_results : List PyDict) :
    Except String (List PyDict) := do
  let entries ← rebuildToolCallEntries 0 tool_calls
  let assistant_msg : PyDict :=
    [("role", .str "assistant"),
     ("content", .str content),
     ("tool_calls", .list entries)]
  let tool_msgs : List PyDict :=
    tool_results.map (fun tr =>
      [("role", .str "tool"),
       ("tool_call_id", pyGet tr "tool_call_id"),
       ("content", .str (pyJsonDumps (pyGet tr "result")))])
  Except.ok (messages ++ [assistant_msg] ++ tool_msgs)

/-- The result dict `ChatProcessor.process_message` returns; keys that a
given return site omits are `none` (`usage` is the dumped `UsageInfo`, `none`
for the empty dict). -/
structure TurnResult where
  response : String
  provider : String
  model : String
  usage : Option UsageInfo
  conversation_history : List Message
  conversation_id : Option String
  error : Option String
deriving DecidableEq, Repr

/-- The `except` boundary of `ChatProcessor.process_message`
(lines 223-244): persist the synthesized error-text assistant message and
return a result carrying the `error` field (no `conversation_id`). -/
def ChatProcessor.errorReturn (cp : ChatProcessor) (w : World)
    (user_id channel_id e : String) : World × ChatProcessor × TurnResult :=
  let error_response := "Sorry, I encountered an error: " ++ e
  let conv1 := (w.conv.add_ai_response user_id channel_id error_response).fst
  ({ w with conv := conv1 }, cp,
   { response := error_response
     provider := cp.current_provider
     model := "unknown"
     usage := Option.none
     conversation_history :=
       conv1.get_conversation_context user_id channel_id Option.none
     conversation_id := Option.none
     error := some e })

/-- The success tail of `ChatProcessor.process_message` (lines 202-221):
persist the final assistant content and return the normalized result. -/
def ChatProcessor.finishReturn (cp : ChatProcessor) (w : World)
    (user_id channel_id : String) (resp : ChatCompletionResult)
    (conversation_id : String) : World × ChatProcessor × TurnResult :=
  let conv1 := (w.conv.add_ai_response user_id channel_id resp.content).fst
  ({ w with conv := conv1 }, cp,
   { response := resp.content
     provider := cp.current_provider
     model := resp.model
     usage := some resp.usage
     conversation_history :=
       conv1.get_conversation_context user_id channel_id Option.none
     conversation_id := some conversation_id
     error := Option.none })

/-- The `try:` body of `ChatProcessor.process_message` (lines 124-244)
together with its `except` boundary: dispatch, the optional tool loop with
switch-directive scan, tool-result persistence, message rebuild and
redispatch, and the final persist-and-return; any raised exception
(a failed provider call, or the `AttributeError` in the rebuild) is routed
to `errorReturn`.  `w1` is the global state after the user message was
already appended. -/
def ChatProcessor.tryTurn (cp : ChatProcessor) (registry : ToolRegistry)
    (jsonLoads : JsonLoads) (w1 : World) (p : Provider)
    (messages : List PyDict) (tools : Option (List PyDict))
    (user_id channel_id conversation_id : String) :
    World × ChatProcessor × TurnResult :=
  match p.chat_completion messages tools with
  | Except.error e => cp.errorReturn w1 user_id channel_id e
  | Except.ok response =>
      if response.tool_calls.isEmpty then
        cp.finishReturn w1 user_id channel_id response conversation_id
      else
        let tool_results :=
          execute_tools registry jsonLoads cp.current_provider
            response.tool_calls
        let cp1 :=
          (applySwitchDirectives cp w1.user_agents user_id channel_id
            tool_results).fst
        let ua1 :=
          (applySwitchDirectives cp w1.user_agents user_id channel_id
            tool_results).snd
        let conv2 := persistToolResults w1.conv user_id channel_id tool_results
        let w2 := { w1 with conv := conv2, user_agents := ua1 }
        match rebuildMessages messages response.content
            response.tool_calls tool_results with
        | Except.error e => cp1.errorReturn w2 user_id channel_id e
        | Except.ok messages2 =>
            match p.chat_completion messages2 Option.none with
            | Except.error e => cp1.errorReturn w2 user_id channel_id e
            | Except.ok final_response =>
                cp1.finishReturn w2 user_id channel_id final_response
                  conversation_id

/-- `ChatProcessor.process_message` (lines 73-244).  External inputs: the
tool registry, the JSON parser, and the timestamp string `ts` for a newly
created conversation id.  Returns the updated global state, the (possibly
instance-switched) processor, and the result dict. -/
def ChatProcessor.process_message (cp : ChatProcessor)
    (registry : ToolRegistry) (jsonLoads : JsonLoads) (w : World)
    (message user_id channel_id : String) (use_tools : Bool) (ts : String) :
    World × ChatProcessor × TurnResult :=
  if cp.providers.isEmpty || cp.current_provider == "none"
      || ((dictGet cp.providers cp.current_provider).bind id).isNone then
    (w, cp,
     { response :=
         "Sorry, no AI providers are currently available. Please check the configuration."
       provider := "none"
       model := "none"
       usage := Option.none
       conversation_history := []
       conversation_id := Option.none
       error := some "No providers available" })
  else
    match (dictGet cp.providers cp.current_provider).bind id with
    | Option.none =>
        (w, cp,
         { response :=
             "Sorry, no AI providers are currently available. Please check the configuration."
           provider := "none"
           model := "none"
           usage := Option.none
           conversation_history := []
           conversation_id := Option.none
           error := some "No providers available" })
    | some p =>
        let (conv1, conversation) :=
          w.conv.add_user_message user_id channel_id message
            cp.current_provider p.model ts
        let llm_context :=
          conv1.get_conversation_context user_id channel_id Option.none
        let messages :=
          cp.prepare_messages w.am w.user_agents message llm_context
            user_id channel_id
        let tools : Option (List PyDict) :=
          if use_tools then
            let tool_names := w.am.get_user_tools w.user_agents user_id channel_id
            if tool_names.isEmpty then Option.none
            else
              let available_tools :=
                tool_names.filterMap (fun n => dictGet registry n)
              if available_tools.isEmpty then Option.none
              else some (available_tools.map Tool.get_schema)
          else Option.none
        let w1 := { w with conv := conv1 }
        cp.tryTurn registry jsonLoads w1 p messages tools user_id channel_id
          conversation.id

def exTrimStore : ConversationManager :=
  { conversations := [], max_messages_per_conversation := 5 }

def exTrimConv : Conversation :=
  { id := "shared_c_t", user_id := "shared", channel_id := "c"
    provider := "openai", model := "m"
    messages :=
      [⟨Role.system, "sys"⟩, ⟨Role.user, "u1"⟩, ⟨Role.assistant, "a1"⟩,
       ⟨Role.user, "u2"⟩, ⟨Role.assistant, "a2"⟩, ⟨Role.user, "u3"⟩,
       ⟨Role.assistant, "a3"⟩, ⟨Role.user, "u4"⟩, ⟨Role.assistant, "a4"⟩] }

def cexStore0 : ConversationManager :=
  { conversations := [], max_messages_per_conversation := 2 }

def cexStore1 : ConversationManager :=
  (cexStore0.add_user_message "u" "c" "a" "openai" "m" "t0").fst

def cexStore2 : ConversationManager :=
  (cexStore1.add_user_message "u" "c" "b" "openai" "m" "t1").fst

def cexStore3 : ConversationManager :=
  (cexStore2.add_tool_result "u" "c" "weather" "ok").fst

def cexConvB : Conversation :=
  { id := "shared_c_t0", user_id := "shared", channel_id := "c"
    provider := "openai", model := "m"
    messages := [⟨Role.user, "[u]: a"⟩, ⟨Role.user, "[u]: b"⟩] }

def cexConvA : Conversation :=
  { id := "shared_c_t0", user_id := "shared", channel_id := "c"
    provider := "openai", model := "m"
    messages := [⟨Role.user, "[u]: a"⟩, ⟨Role.user, "[u]: b"⟩,
                 ⟨Role.tool, "Tool weather executed: ok"⟩] }

/-- The message `ConversationManager.add_tool_result` appends for a
tool-result entry of `_execute_tools`. -/
def toolMsgOf (tr : PyDict) : Message :=
  ⟨Role.tool,
   "Tool " ++ (pyGet tr "tool_name").display ++ " executed: "
     ++ pyJsonDumps (pyGet tr "result")⟩

/-- The conversation `add_user_message` stores for a previously absent
channel (named for reuse in proofs). -/
def freshUserConv (uid ch content prov model ts : String) : Conversation :=
  { id := ConversationManager.generate_conversation_id "shared" ch ts
    user_id := "shared"
    channel_id := ch
    provider := prov
    model := model
    messages := [⟨Role.user, "[" ++ uid ++ "]: " ++ content⟩] }

def exAgentsCfg : AgentsConfig :=
  { agents := [("general",
      { name := "General", description := "General assistant"
        system_prompt := "You are a helpful assistant.", tools := ["utility"] })]
    tool_categories := [("utility", ["WeatherTool"])]
    default_agent := some "general" }

def exAgentManager : AgentManager := AgentManager.init (Except.ok exAgentsCfg)

def exOllamaMsgs : List PyDict :=
  [[("role", PyVal.str "system"), ("content", PyVal.str "be nice")],
   [("role", PyVal.str "user"), ("content", PyVal.str "hi")]]

/-- The "no providers" short-circuit result of `process_message`
(lines 84-92). -/
def noProviderResult : TurnResult :=
  { response :=
      "Sorry, no AI providers are currently available. Please check the configuration."
    provider := "none"
    model := "none"
    usage := Option.none
    conversation_history := []
    conversation_id := Option.none
    error := some "No providers available" }

def exSettings : Settings :=
  { ai_provider := "openai", max_messages_per_conversation := 100 }

def exJsonNone : JsonLoads := fun _ => Except.error "unused"

def exWorld0 : World :=
  { conv := { conversations := [], max_messages_per_conversation := 100 }
    user_agents := []
    am := exAgentManager
    pm := { default_provider := "openai", channel_providers := [] } }

def provUnavailOllama : Provider :=
  { is_available := false
    model := "llama3"
    chat_completion := fun _ _ => Except.error "All connection attempts failed" }

def exSettingsOllama : Settings :=
  { ai_provider := "ollama", max_messages_per_conversation := 100 }

def cpUnavail : ChatProcessor :=
  ChatProcessor.init exSettingsOllama [("ollama", provUnavailOllama)]

/-- The `ToolResult` the switching tool returns: success plus a
`provider_switch` metadata directive naming `ollama`. -/
def exSwitchToolResult : PyToolResult :=
  { success := true
    data := some (.str "Successfully switched from openai to ollama")
    error := Option.none
    metadata := some [("provider_switch", PyVal.bool true),
                      ("new_provider", PyVal.str "ollama")] }

def switcherTool : Tool :=
  { name := "switcher", description := "switches the provider"
    parameters := .dict [], execute := fun _ => Except.ok exSwitchToolResult }

def exRegistry : ToolRegistry := [("switcher", switcherTool)]

/-- First response of the stubbed OpenAI backend: one tool call naming the
switching tool. -/
def exResp1 : ChatCompletionResult :=
  { content := ""
    model := "gpt-4"
    usage := { prompt_tokens := 1, completion_tokens := 1, total_tokens := 2 }
    tool_calls := [ToolCallShape.objFunc "switcher" "\x7b\x7d" (some "call_1")] }

/-- Redispatch response of the stubbed OpenAI backend. -/
def exResp2 : ChatCompletionResult :=
  { content := "done"
    model := "gpt-4"
    usage := { prompt_tokens := 2, completion_tokens := 2, total_tokens := 4 }
    tool_calls := [] }

def provOpenaiAvail : Provider :=
  { is_available := true
    model := "gpt-4"
    chat_completion := fun msgs _tools =>
      if msgs.any (fun m => pyGet m "role" == PyVal.str "tool") then
        Except.ok exResp2
      else
        Except.ok exResp1 }

def provOllamaAvail : Provider :=
  { is_available := true
    model := "llama3"
    chat_completion := fun _ _ =>
      Except.ok
        { content := "ollama reply"
          model := "llama3"
          usage := { prompt_tokens := 1, completion_tokens := 1, total_tokens := 2 }
          tool_calls := [] } }

def exDiscovered : List (String × Provider) :=
  [("openai", provOpenaiAvail), ("ollama", provOllamaAvail)]

def exJsonObj : JsonLoads :=
  fun s =>
    if s == "\x7b\x7d" then Except.ok (.dict []) else Except.error "Expecting value"

/-- The turn in which the executed tool's result carries the
`provider_switch` directive. -/
def exSwitchTurn : World × ChatProcessor × TurnResult :=
  (get_chat_processor exSettings exDiscovered).process_message exRegistry
    exJsonObj exWorld0 "switch to ollama" "u1" "c1" true "t0"

def provFail : Provider :=
  { is_available := true
    model := "gpt-4"
    chat_completion := fun _ _ => Except.error "boom" }

def cpFail : ChatProcessor := ChatProcessor.init exSettings [("openai", provFail)]

/-- Attribute-style (object) tool calls — the shapes the OpenAI client
returns — with an explicit call id. -/
def ToolCallShape.objShaped : ToolCallShape → Bool
  | .objDirect _ _ i => i.isSome
  | .objFunc _ _ i => i.isSome
  | .dictCall _ => false

/-- The tool name of an attribute-style call. -/
def ToolCallShape.shapeName : ToolCallShape → String
  | .objDirect n _ _ => n
  | .objFunc n _ _ => n
  | .dictCall _ => ""

/-- The raw arguments string of an attribute-style call. -/
def ToolCallShape.shapeArgs : ToolCallShape → String
  | .objDirect _ a _ => a
  | .objFunc _ a _ => a
  | .dictCall _ => ""

/-- The call id of an attribute-style call. -/
def ToolCallShape.shapeId : ToolCallShape → String
  | .objDirect _ _ i => i.getD ""
  | .objFunc _ _ i => i.getD ""
  | .dictCall _ => ""

/-- The result entry a single tool call contributes under the OpenAI branch
of `_execute_tools`: `none` when the tool is unregistered or its execution
raises (the call is skipped), the `(tool_call_id, tool_name, result)` entry
when it succeeds. -/
def execEntry (registry : ToolRegistry) (jsonLoads : JsonLoads)
    (tc : ToolCallShape) : Option PyDict :=
  match jsonLoads tc.shapeArgs with
  | Except.error _ => Option.none
  | Except.ok args =>
      match dictGet registry tc.shapeName with
      | Option.none => Option.none
      | some t =>
          match t.execute args with
          | Except.error _ => Option.none
          | Except.ok r =>
              some [("tool_call_id", PyVal.str tc.shapeId),
                    ("tool_name", PyVal.str tc.shapeName),
                    ("result", r.model_dump)]

def goodToolC8 : Tool :=
  { name := "good", description := "returns data", parameters := .dict []
    execute := fun _ => Except.ok
      { success := true, data := some (.str "42")
        error := Option.none, metadata := Option.none } }

def badToolC8 : Tool :=
  { name := "bad", description := "always raises", parameters := .dict []
    execute := fun _ => Except.error "boom" }

def exRegistryC8 : ToolRegistry := [("good", goodToolC8), ("bad", badToolC8)]

/-- A dict-shaped tool call as the Ollama backend returns them. -/
def dictToolCall (name id : String) : ToolCallShape :=
  ToolCallShape.dictCall
    [("id", .str id),
     ("function", .dict [("name", .str name), ("arguments", .str "\x7b\x7d")])]

def exDictBatch : List ToolCallShape :=
  [dictToolCall "good" "i1", dictToolCall "missing" "i2", dictToolCall "bad" "i3"]

def exRespC8 : ChatCompletionResult :=
  { content := ""
    model := "llama3"
    usage := { prompt_tokens := 1, completion_tokens := 1, total_tokens := 2 }
    tool_calls := exDictBatch }

def provOllamaC8 : Provider :=
  { is_available := true
    model := "llama3"
    chat_completion := fun _ _ => Except.ok exRespC8 }

def cpC8 : ChatProcessor :=
  ChatProcessor.init exSettingsOllama [("ollama", provOllamaC8)]

/-- A turn whose batch is dict-shaped with one unregistered, one raising and
one succeeding tool call. -/
def exDictTurn : World × ChatProcessor × TurnResult :=
  cpC8.process_message exRegistryC8 exJsonObj exWorld0 "use tools" "u1" "c1"
    true "t0"

def exR1w : ChatCompletionResult :=
  { content := ""
    model := "gpt-4"
    usage := { prompt_tokens := 1, completion_tokens := 1, total_tokens := 2 }
    tool_calls :=
      [ToolCallShape.objFunc "good" "\x7b\x7d" (some "id1"),
       ToolCallShape.objFunc "missing" "\x7b\x7d" (some "id2"),
       ToolCallShape.objFunc "bad" "\x7b\x7d" (some "id3")] }

def exR2w : ChatCompletionResult :=
  { content := "done"
    model := "gpt-4"
    usage := { prompt_tokens := 2, completion_tokens := 2, total_tokens := 4 }
    tool_calls := [] }

def provC8w : Provider :=
  { is_available := true
    model := "gpt-4"
    chat_completion := fun _ tls =>
      match tls with
      | some _ => Except.ok exR1w
      | Option.none => Except.ok exR2w }

def cpC8w : ChatProcessor := ChatProcessor.init exSettings [("openai", provC8w)]

def exAgentsCfgC8 : AgentsConfig :=
  { agents := [("general",
      { name := "General", description := "General assistant"
        system_prompt := "You are a helpful assistant.", tools := ["utility"] })]
    tool_categories := [("utility", ["good", "bad"])]
    default_agent := some "general" }

def exWorldC8 : World :=
  { conv := { conversations := [], max_messages_per_conversation := 100 }
    user_agents := []
    am := AgentManager.init (Except.ok exAgentsCfgC8)
    pm := { default_provider := "openai", channel_providers := [] } }

theorem dictGet_dictInsert_self {α : Type} (d : List (String × α)) (k : String) (v : α) :
    dictGet (dictInsert d k v) k = some v := by
  induction d with
  | nil => simp [dictInsert, dictGet]
  | cons kv rest ih =>
      obtain ⟨k', v'⟩ := kv
      by_cases h : k' = k
      · simp [dictInsert, dictGet, h]
      · simp [dictInsert, dictGet, h, ih]

theorem takeLastPy_sublist {α : Type} (xs : List α) (n : Nat) :
    List.Sublist (takeLastPy xs n) xs := by
  unfold takeLastPy
  split
  · exact List.Sublist.refl xs
  · exact List.drop_sublist _ xs

theorem takeLastPy_suffix {α : Type} (xs : List α) (n : Nat) :
    List.IsSuffix (takeLastPy xs n) xs := by
  unfold takeLastPy
  split
  · exact List.suffix_refl xs
  · exact List.drop_suffix _ xs

theorem takeLastPy_length {α : Type} (xs : List α) (n : Nat) (h : 1 ≤ n) :
    (takeLastPy xs n).length = min n xs.length := by
  unfold takeLastPy
  split
  · omega
  · rw [List.length_drop]; omega

/-- C3 (amended): `get_conversation_context` returns the `user`/`assistant`
messages found among the most recent N messages of any role (so at most N,
and fewer when `system`/`tool` messages occupy window slots), as an
order-preserving sublist of the conversation, and never containing a
`system` or `tool` entry. -/
theorem get_conversation_context_window
    (m : ConversationManager) (uid ch : String) (nopt : Option Nat)
    (c : Conversation) (hc : dictGet m.conversations ch = some c) :
    m.get_conversation_context uid ch nopt
      = (takeLastPy c.messages (nopt.getD m.max_messages_per_conversation)).filter
          (fun msg => msg.role == Role.user || msg.role == Role.assistant)
    ∧ List.Sublist (m.get_conversation_context uid ch nopt) c.messages
    ∧ (∀ msg ∈ m.get_conversation_context uid ch nopt,
        msg.role = Role.user ∨ msg.role = Role.assistant)
    ∧ (1 ≤ nopt.getD m.max_messages_per_conversation →
        (m.get_conversation_context uid ch nopt).length
          ≤ nopt.getD m.max_messages_per_conversation) := by
  have hr : m.get_conversation_context uid ch nopt
      = (takeLastPy c.messages (nopt.getD m.max_messages_per_conversation)).filter
          (fun msg => msg.role == Role.user || msg.role == Role.assistant) := by
    simp [ConversationManager.get_conversation_context, hc, Conversation.get_llm_context]
  refine ⟨hr, ?_, ?_, ?_⟩
  · rw [hr]
    exact (List.filter_sublist _).trans (takeLastPy_sublist _ _)
  · intro msg hm
    rw [hr] at hm
    have hp := (List.mem_filter.mp hm).2
    cases hrole : msg.role <;> simp [hrole] at hp ⊢ <;> exact absurd hp (by decide)
  · intro h1
    rw [hr]
    calc ((takeLastPy c.messages (nopt.getD m.max_messages_per_conversation)).filter
          (fun msg => msg.role == Role.user || msg.role == Role.assistant)).length
        ≤ (takeLastPy c.messages (nopt.getD m.max_messages_per_conversation)).length :=
          List.length_filter_le _ _
      _ ≤ nopt.getD m.max_messages_per_conversation := by
          rw [takeLastPy_length _ _ h1]; omega

/-- C6: when a conversation's message count exceeds the configured cap
(cap at least 1), `_trim_conversation` leaves exactly all `system`-role
messages followed by the most recent cap non-system messages: the kept
non-system messages are a suffix of the non-system messages (most recent, in
original relative order, `min cap count` of them) and the kept system
messages are the order-preserving filter of the original list. -/
theorem trim_policy_correct (m : ConversationManager) (c : Conversation)
    (hcap : 1 ≤ m.max_messages_per_conversation)
    (hover : c.messages.length > m.max_messages_per_conversation) :
    (m.trim_conversation c).messages
        = c.messages.filter (fun msg => msg.role == Role.system)
          ++ takeLastPy (c.messages.filter (fun msg => !(msg.role == Role.system)))
               m.max_messages_per_conversation
    ∧ List.IsSuffix
        (takeLastPy (c.messages.filter (fun msg => !(msg.role == Role.system)))
          m.max_messages_per_conversation)
        (c.messages.filter (fun msg => !(msg.role == Role.system)))
    ∧ (takeLastPy (c.messages.filter (fun msg => !(msg.role == Role.system)))
        m.max_messages_per_conversation).length
        = min m.max_messages_per_conversation
            (c.messages.filter (fun msg => !(msg.role == Role.system))).length
    ∧ List.Sublist (c.messages.filter (fun msg => msg.role == Role.system)) c.messages := by
  refine ⟨?_, takeLastPy_suffix _ _, takeLastPy_length _ _ hcap, List.filter_sublist _⟩
  simp [ConversationManager.trim_conversation, hover]

/-- C6 witness: the spec's example — cap 5, one `system` plus eight
`user`/`assistant` messages — trims to the `system` message plus the five
most recent non-system messages in original relative order. -/
theorem trim_policy_correct_witness :
    (1 ≤ exTrimStore.max_messages_per_conversation)
    ∧ (exTrimConv.messages.length > exTrimStore.max_messages_per_conversation)
    ∧ (exTrimStore.trim_conversation exTrimConv).messages
        = [⟨Role.system, "sys"⟩, ⟨Role.assistant, "a2"⟩, ⟨Role.user, "u3"⟩,
           ⟨Role.assistant, "a3"⟩, ⟨Role.user, "u4"⟩, ⟨Role.assistant, "a4"⟩] := by
  refine ⟨by decide, by decide, ?_⟩
  have h := trim_policy_correct exTrimStore exTrimConv (by decide) (by decide)
  exact h.1.trans (by decide)

/-- C7: for a channel with no existing conversation, `add_ai_response` and
`add_tool_result` return `None` and leave the store completely unchanged (no
conversation is created). -/
theorem absent_channel_appends_noop (m : ConversationManager)
    (uid ch content tn trj : String)
    (h : dictGet m.conversations ch = Option.none) :
    m.add_ai_response uid ch content = (m, Option.none)
    ∧ m.add_tool_result uid ch tn trj = (m, Option.none) := by
  constructor
  · simp [ConversationManager.add_ai_response, h]
  · simp [ConversationManager.add_tool_result, h]

/-- C7 witness: both appends on an empty store return the store unchanged
with `none`. -/
theorem absent_channel_appends_noop_witness :
    (dictGet (ConversationManager.mk [] 100).conversations "c9" = Option.none)
    ∧ (ConversationManager.mk [] 100).add_ai_response "u1" "c9" "hello"
        = (ConversationManager.mk [] 100, Option.none)
    ∧ (ConversationManager.mk [] 100).add_tool_result "u1" "c9" "weather" "ok"
        = (ConversationManager.mk [] 100, Option.none) := by
  have h := absent_channel_appends_noop (ConversationManager.mk [] 100)
    "u1" "c9" "hello" "weather" "ok" (by decide)
  exact ⟨by decide, h.1, h.2⟩

/-- C10: `add_tool_result` on an existing conversation appends exactly one
`tool` message and performs no trim check, so the count grows by exactly one
even at or above the configured cap; the conversation is only trimmed back
by a subsequent `add_ai_response` (or `add_user_message`) once the count
exceeds the cap. -/
theorem add_tool_result_never_trims (m : ConversationManager)
    (uid ch tn trj : String) (c : Conversation)
    (h : dictGet m.conversations ch = some c) :
    (m.add_tool_result uid ch tn trj).snd
        = some (c.add_message Role.tool ("Tool " ++ tn ++ " executed: " ++ trj))
    ∧ dictGet (m.add_tool_result uid ch tn trj).fst.conversations ch
        = some (c.add_message Role.tool ("Tool " ++ tn ++ " executed: " ++ trj))
    ∧ ((m.add_tool_result uid ch tn trj).snd.map (fun c' => c'.messages.length))
        = some (c.messages.length + 1)
    ∧ (∀ content : String,
        c.messages.length + 2 > m.max_messages_per_conversation →
        ((m.add_tool_result uid ch tn trj).fst.add_ai_response uid ch content).snd
          = some (m.trim_conversation
              ((c.add_message Role.tool ("Tool " ++ tn ++ " executed: " ++ trj)).add_message
                Role.assistant content))) := by
  refine ⟨?_, ?_, ?_, ?_⟩
  · simp [ConversationManager.add_tool_result, h]
  · simp [ConversationManager.add_tool_result, h, dictGet_dictInsert_self]
  · simp [ConversationManager.add_tool_result, h, Conversation.add_message]
  · intro content hlen
    have hm' : (m.add_tool_result uid ch tn trj).fst
        = { m with conversations := dictInsert m.conversations ch (c.add_message Role.tool ("Tool " ++ tn ++ " executed: " ++ trj)) } := by
      simp [ConversationManager.add_tool_result, h]
    rw [hm']
    simp only [ConversationManager.add_ai_response, dictGet_dictInsert_self]
    have hcond : ((c.add_message Role.tool ("Tool " ++ tn ++ " executed: " ++ trj)).add_message
        Role.assistant content).get_message_count
        > m.max_messages_per_conversation := by
      simp [Conversation.add_message, Conversation.get_message_count]
      omega
    simp [hcond, ConversationManager.trim_conversation]

/-- C10 witness: a store at its cap of 2 grows to 3 messages on
`add_tool_result`, and the following `add_ai_response` trims it. -/
theorem add_tool_result_never_trims_witness :
    dictGet cexStore2.conversations "c" = some cexConvB
    ∧ cexConvB.messages.length = 2
    ∧ cexStore2.max_messages_per_conversation = 2
    ∧ ((cexStore2.add_tool_result "u" "c" "weather" "ok").snd.map
        (fun c' => c'.messages.length)) = some 3
    ∧ ((cexStore2.add_tool_result "u" "c" "weather" "ok").fst.add_ai_response
        "u" "c" "resp").snd
        = some (cexStore2.trim_conversation
            ((cexConvB.add_message Role.tool "Tool weather executed: ok").add_message
              Role.assistant "resp")) := by
  have h := add_tool_result_never_trims cexStore2 "u" "c" "weather" "ok" cexConvB (by decide)
  exact ⟨by decide, by decide, by decide, h.2.2.1, h.2.2.2 "resp" (by decide)⟩

/-- C3 counterexample: with a cap of 2 and a conversation holding two `user`
messages followed by one `tool` message, `get_conversation_context` returns
only `[u]: b` — not the two most recent `user`/`assistant` messages
`[[u]: a, [u]: b]` — because the last-N window is sliced before the role
filter and the `tool` message occupies a slot. -/
theorem get_conversation_context_not_recent_cex :
    dictGet cexStore3.conversations "c" = some cexConvA
    ∧ takeLastPy (cexConvA.messages.filter
        (fun msg => msg.role == Role.user || msg.role == Role.assistant)) 2
        = [⟨Role.user, "[u]: a"⟩, ⟨Role.user, "[u]: b"⟩]
    ∧ cexStore3.get_conversation_context "u" "c" Option.none
        = [⟨Role.user, "[u]: b"⟩]
    ∧ cexStore3.get_conversation_context "u" "c" Option.none
        ≠ [⟨Role.user, "[u]: a"⟩, ⟨Role.user, "[u]: b"⟩] := by
  refine ⟨by decide, by decide, by decide, by decide⟩

/-- C3 witness: the amended window theorem evaluated on the concrete
three-message store with cap 2. -/
theorem get_conversation_context_window_witness :
    dictGet cexStore3.conversations "c" = some cexConvA
    ∧ List.Sublist (cexStore3.get_conversation_context "u" "c" Option.none)
        cexConvA.messages
    ∧ (cexStore3.get_conversation_context "u" "c" Option.none).length ≤ 2 := by
  have h := get_conversation_context_window cexStore3 "u" "c" Option.none cexConvA (by decide)
  exact ⟨by decide, h.2.1, h.2.2.2 (by decide)⟩

theorem pyGet_dictInsert_self (d : PyDict) (k : String) (v : PyVal) :
    pyGet (dictInsert d k v) k = v := by
  simp [pyGet, pyGetD, dictGet_dictInsert_self]

theorem dictInsert_dictInsert_self {α : Type} (d : List (String × α))
    (k : String) (v v' : α) :
    dictInsert (dictInsert d k v) k v' = dictInsert d k v' := by
  induction d with
  | nil => simp [dictInsert]
  | cons kv rest ih =>
      obtain ⟨k1, v1⟩ := kv
      by_cases h : k1 = k
      · simp [dictInsert, h]
      · simp [dictInsert, h, ih]

theorem add_user_message_fresh (m : ConversationManager)
    (uid ch content prov model ts : String)
    (h : dictGet m.conversations ch = Option.none) :
    m.add_user_message uid ch content prov model ts
      = ({ m with conversations := dictInsert m.conversations ch (freshUserConv uid ch content prov model ts) },
         freshUserConv uid ch content prov model ts) := by
  unfold ConversationManager.add_user_message ConversationManager.get_or_create_conversation
  rw [h]
  simp only [Conversation.add_message, Conversation.get_message_count]
  have hfil1 : List.filter (fun msg => msg.role == Role.system)
      [Message.mk Role.user ("[" ++ uid ++ "]: " ++ content)] = [] := rfl
  have hfil2 : List.filter (fun msg => !(msg.role == Role.system))
      [Message.mk Role.user ("[" ++ uid ++ "]: " ++ content)]
      = [Message.mk Role.user ("[" ++ uid ++ "]: " ++ content)] := rfl
  by_cases hcap0 : m.max_messages_per_conversation = 0
  · simp [hcap0, ConversationManager.trim_conversation, takeLastPy,
      freshUserConv, dictInsert_dictInsert_self, hfil1, hfil2]
  · have hcond : ¬(([] : List Message)
        ++ [Message.mk Role.user ("[" ++ uid ++ "]: " ++ content)]).length
          > m.max_messages_per_conversation := by
      simp; omega
    simp [hcond, hcap0, freshUserConv, dictInsert_dictInsert_self]

theorem persistToolResults_lookup (trs : List PyDict) (m : ConversationManager)
    (uid ch : String) (c : Conversation)
    (h : dictGet m.conversations ch = some c) :
    dictGet (persistToolResults m uid ch trs).conversations ch
        = some { c with messages := c.messages ++ trs.map toolMsgOf }
    ∧ (persistToolResults m uid ch trs).max_messages_per_conversation
        = m.max_messages_per_conversation := by
  induction trs generalizing m c with
  | nil =>
      constructor
      · simpa [persistToolResults] using h
      · simp [persistToolResults]
  | cons tr rest ih =>
      have hstep : (m.add_tool_result uid ch
          (pyGet tr "tool_name").display (pyJsonDumps (pyGet tr "result"))).fst
          = { m with conversations := dictInsert m.conversations ch (c.add_message Role.tool ("Tool " ++ (pyGet tr "tool_name").display ++ " executed: " ++ pyJsonDumps (pyGet tr "result"))) } := by
        simp [ConversationManager.add_tool_result, h]
      have hpersist : persistToolResults m uid ch (tr :: rest)
          = persistToolResults
              ({ m with conversations := dictInsert m.conversations ch (c.add_message Role.tool ("Tool " ++ (pyGet tr "tool_name").display ++ " executed: " ++ pyJsonDumps (pyGet tr "result"))) })
              uid ch rest := by
        simp [persistToolResults, hstep]
      rw [hpersist]
      have hget2 : dictGet ({ m with conversations := dictInsert m.conversations ch (c.add_message Role.tool ("Tool " ++ (pyGet tr "tool_name").display ++ " executed: " ++ pyJsonDumps (pyGet tr "result"))) } : ConversationManager).conversations ch
          = some (c.add_message Role.tool ("Tool " ++ (pyGet tr "tool_name").display ++ " executed: " ++ pyJsonDumps (pyGet tr "result"))) := by
        simpa using dictGet_dictInsert_self m.conversations ch _
      obtain ⟨h1, h2⟩ := ih _ _ hget2
      constructor
      · rw [h1]
        simp [Conversation.add_message, toolMsgOf]
      · rw [h2]

theorem add_ai_response_no_trim (m : ConversationManager)
    (uid ch content : String) (c : Conversation)
    (h : dictGet m.conversations ch = some c)
    (hlen : c.messages.length + 1 ≤ m.max_messages_per_conversation) :
    m.add_ai_response uid ch content
      = ({ m with conversations := dictInsert m.conversations ch (c.add_message Role.assistant content) },
         some (c.add_message Role.assistant content)) := by
  have hno : ¬(c.add_message Role.assistant content).get_message_count
      > m.max_messages_per_conversation := by
    simp [Conversation.add_message, Conversation.get_message_count]
    omega
  simp [ConversationManager.add_ai_response, h, hno]

/-- C2 (code bug): when re-reading the agent configuration fails,
`reload_agents_config` does not preserve the previous configuration and does
not report failure: `_load_agents_config` swallows the exception and returns
the empty default configuration, which replaces the loaded one, and the
reload returns `True` (its restore-and-return-`False` branch is dead code). -/
theorem reload_failure_installs_default_and_reports_success :
    exAgentManager.agents_config = exAgentsCfg
    ∧ (exAgentManager.reload_agents_config (Except.error "Expecting value: line 1 column 1")).snd
        = true
    ∧ (exAgentManager.reload_agents_config (Except.error "Expecting value: line 1 column 1")).fst.agents_config
        = defaultAgentsConfig
    ∧ (exAgentManager.reload_agents_config (Except.error "Expecting value: line 1 column 1")).fst.agents_config
        ≠ exAgentManager.agents_config := by
  refine ⟨rfl, rfl, rfl, ?_⟩
  decide

/-- C9: every message whose role is `system` is remapped to role
`assistant` before the Ollama request is built, pointwise preserving content
and leaving non-system messages untouched, so the request payload contains
no `system`-role message. -/
theorem ollama_request_has_no_system_role (model : String)
    (messages : List PyDict) (tools : Option (List PyDict)) :
    (∀ msg ∈ (ollama_request_data model messages tools).messages,
        pyGet msg "role" ≠ PyVal.str "system")
    ∧ (∀ i : Nat,
        ((ollama_request_data model messages tools).messages.get? i)
          = (messages.get? i).map (fun orig =>
              if pyGet orig "role" = PyVal.str "system" then
                dictInsert orig "role" (PyVal.str "assistant")
              else orig)) := by
  constructor
  · intro msg hm
    simp only [ollama_request_data, ollama_preprocess_messages, List.mem_map] at hm
    obtain ⟨orig, _, rfl⟩ := hm
    split
    · rw [pyGet_dictInsert_self]
      intro hcontra
      exact PyVal.noConfusion hcontra (fun hs => by simp at hs)
    · assumption
  · intro i
    simp [ollama_request_data, ollama_preprocess_messages]

/-- C9 witness: a concrete two-message list whose `system` message is sent
as role `assistant`. -/
theorem ollama_request_has_no_system_role_witness :
    ((ollama_request_data "llama3" exOllamaMsgs Option.none).messages.get? 0)
      = some [("role", PyVal.str "assistant"), ("content", PyVal.str "be nice")]
    ∧ pyGet [("role", PyVal.str "assistant"), ("content", PyVal.str "be nice")] "role"
        ≠ PyVal.str "system" := by
  have h := ollama_request_has_no_system_role "llama3" exOllamaMsgs Option.none
  constructor
  · rw [h.2 0]; decide
  · apply h.1
    decide

/-- C5 (amended): the orchestrator short-circuits with the "no AI providers
are currently available" result and leaves the store (and all global state)
completely unchanged exactly when no provider instance is resolvable: the
provider dict is empty, the current provider is the `"none"` placeholder, or
its entry is missing/`None`.  A resolved-but-unavailable provider is still
dispatched. -/
theorem no_provider_short_circuit
    (cp : ChatProcessor) (registry : ToolRegistry) (jsonLoads : JsonLoads)
    (w : World) (msg uid ch : String) (ut : Bool) (ts : String)
    (h : cp.providers.isEmpty = true ∨ cp.current_provider = "none"
        ∨ ((dictGet cp.providers cp.current_provider).bind id) = Option.none) :
    cp.process_message registry jsonLoads w msg uid ch ut ts
      = (w, cp, noProviderResult) := by
  unfold ChatProcessor.process_message
  split
  case isTrue => rfl
  case isFalse hfalse =>
    exfalso
    rcases h with h | h | h
    · simp [h] at hfalse
    · simp [h] at hfalse
    · simp at hfalse
      obtain ⟨-, x, hx, hxne⟩ := hfalse
      rw [hx] at h
      simp at h
      exact hxne h

/-- C5 witness: a processor built with no discovered providers
short-circuits and returns the state unchanged. -/
theorem no_provider_short_circuit_witness :
    (get_chat_processor exSettings []).process_message [] exJsonNone exWorld0
        "hi" "u1" "c1" true "t0"
      = (exWorld0, get_chat_processor exSettings [], noProviderResult) :=
  no_provider_short_circuit (get_chat_processor exSettings []) [] exJsonNone
    exWorld0 "hi" "u1" "c1" true "t0" (Or.inr (Or.inl rfl))

/-- C5 counterexample: a resolved provider whose `is_available()` is false is
NOT short-circuited: the short-circuit check at line 84 only tests presence
(`self.providers.get(...)`), so the turn appends the user message (the store
changes) and dispatches to the unavailable provider, returning a dispatch
error rather than the "no AI providers" result. -/
theorem unavailable_provider_still_touches_store :
    cpUnavail.current_provider = "ollama"
    ∧ provUnavailOllama.is_available = false
    ∧ (dictGet (cpUnavail.process_message [] exJsonNone exWorld0
        "hi" "u1" "c1" true "t0").fst.conv.conversations "c1").isSome = true
    ∧ (cpUnavail.process_message [] exJsonNone exWorld0
        "hi" "u1" "c1" true "t0").snd.snd.response
        ≠ "Sorry, no AI providers are currently available. Please check the configuration."
    ∧ (cpUnavail.process_message [] exJsonNone exWorld0
        "hi" "u1" "c1" true "t0").snd.snd.error
        = some "All connection attempts failed" := by
  refine ⟨rfl, rfl, rfl, ?_, rfl⟩
  decide

theorem dictGet_result_entry_no_metadata (a b c : PyVal) :
    dictGet [("tool_call_id", a), ("tool_name", b), ("result", c)] "metadata"
      = Option.none := by
  simp [dictGet]

theorem execute_tools_step_no_metadata (registry : ToolRegistry)
    (jsonLoads : JsonLoads) (pn : String) (tc : ToolCallShape)
    (res : List PyDict) (h : ∀ r ∈ res, dictGet r "metadata" = Option.none) :
    ∀ r ∈ execute_tools_step registry jsonLoads pn tc res,
      dictGet r "metadata" = Option.none := by
  intro r hr
  unfold execute_tools_step at hr
  split at hr
  · rcases List.mem_append.mp hr with hin | hin
    · exact h r hin
    · simp at hin
      subst hin
      exact dictGet_result_entry_no_metadata _ _ _
  · split at hr
    · split at hr
      · rcases List.mem_append.mp hr with hin | hin
        · exact h r hin
        · simp at hin
          subst hin
          exact dictGet_result_entry_no_metadata _ _ _
      · exact h r hr
    · exact h r hr

theorem execute_tools_loop_no_metadata (registry : ToolRegistry)
    (jsonLoads : JsonLoads) (pn : String) (tcs : List ToolCallShape)
    (res : List PyDict) (h : ∀ r ∈ res, dictGet r "metadata" = Option.none) :
    ∀ r ∈ execute_tools_loop registry jsonLoads pn tcs res,
      dictGet r "metadata" = Option.none := by
  induction tcs generalizing res with
  | nil => simpa [execute_tools_loop] using h
  | cons tc rest ih =>
      intro r hr
      rw [execute_tools_loop] at hr
      exact ih _ (execute_tools_step_no_metadata registry jsonLoads pn tc res h) r hr

theorem applySwitchDirective_no_metadata (acc : ChatProcessor × UserAgents)
    (uid ch : String) (tr : PyDict)
    (h : dictGet tr "metadata" = Option.none) :
    applySwitchDirective acc uid ch tr = acc := by
  simp [applySwitchDirective, pyGetD, h, PyVal.getKey, pyGet, dictGet,
    PyVal.truthy]

theorem applySwitchDirectives_no_metadata (cp : ChatProcessor) (ua : UserAgents)
    (uid ch : String) (trs : List PyDict)
    (h : ∀ r ∈ trs, dictGet r "metadata" = Option.none) :
    applySwitchDirectives cp ua uid ch trs = (cp, ua) := by
  induction trs generalizing cp ua with
  | nil => rfl
  | cons tr rest ih =>
      have hstep : applySwitchDirectives cp ua uid ch (tr :: rest)
          = applySwitchDirectives cp ua uid ch rest := by
        simp only [applySwitchDirectives, List.foldl_cons]
        rw [applySwitchDirective_no_metadata (cp, ua) uid ch tr (h tr (by simp))]
      rw [hstep]
      exact ih cp ua (fun r hr => h r (by simp [hr]))

/-- C1 (code bug): in a turn whose tool-result batch contains a result whose
`ToolResult.metadata` carries a `provider_switch` directive naming the valid,
available provider `ollama`, the turn completes, yet the directive has no
effect: `process_message` reads `tool_result.get("metadata")` on the
`_execute_tools` entry — whose only keys are `tool_call_id`, `tool_name` and
`result` — so the switch branch never fires; the instance's
`current_provider` stays `openai`; the next turn's processor, rebuilt by
`get_chat_processor`, again uses the configured default; and the channel
routing table is never written, so `GET /api/ai/provider/status/{channel_id}`
keeps `is_custom = false`. -/
theorem provider_switch_directive_has_no_effect :
    execute_tools exRegistry exJsonObj "openai"
        [ToolCallShape.objFunc "switcher" "\x7b\x7d" (some "call_1")]
      = [[("tool_call_id", PyVal.str "call_1"),
          ("tool_name", PyVal.str "switcher"),
          ("result", exSwitchToolResult.model_dump)]]
    ∧ exSwitchToolResult.metadata
        = some [("provider_switch", PyVal.bool true),
                ("new_provider", PyVal.str "ollama")]
    ∧ (dictGet (get_chat_processor exSettings exDiscovered).providers "ollama").isSome
        = true
    ∧ provOllamaAvail.is_available = true
    ∧ exSwitchTurn.snd.snd.error = Option.none
    ∧ exSwitchTurn.snd.snd.response = "done"
    ∧ exSwitchTurn.snd.fst.current_provider = "openai"
    ∧ exSwitchTurn.snd.snd.provider = "openai"
    ∧ (get_chat_processor exSettings exDiscovered).current_provider = "openai"
    ∧ exSwitchTurn.fst.pm = exWorld0.pm
    ∧ (get_provider_status exSwitchTurn.fst.pm "c1").is_custom = false :=
  ⟨rfl, rfl, rfl, rfl, rfl, rfl, rfl, rfl, rfl, rfl, rfl⟩

theorem errorReturn_facts (cp : ChatProcessor) (w : World) (uid ch e u : String)
    (c : Conversation)
    (hc : dictGet w.conv.conversations ch = some c)
    (hlen : c.messages.length + 1 ≤ w.conv.max_messages_per_conversation)
    (hu : Message.mk Role.user u ∈ c.messages) :
    (cp.errorReturn w uid ch e).snd.snd.response
        = "Sorry, I encountered an error: " ++ e
    ∧ (cp.errorReturn w uid ch e).snd.snd.error = some e
    ∧ ∃ c', dictGet (cp.errorReturn w uid ch e).fst.conv.conversations ch = some c'
        ∧ Message.mk Role.user u ∈ c'.messages
        ∧ Message.mk Role.assistant ("Sorry, I encountered an error: " ++ e)
            ∈ c'.messages := by
  have hadd := add_ai_response_no_trim w.conv uid ch
    ("Sorry, I encountered an error: " ++ e) c hc hlen
  refine ⟨rfl, rfl,
    ⟨c.add_message Role.assistant ("Sorry, I encountered an error: " ++ e),
     ?_, ?_, ?_⟩⟩
  · have hw : (cp.errorReturn w uid ch e).fst.conv
        = (w.conv.add_ai_response uid ch
            ("Sorry, I encountered an error: " ++ e)).fst := rfl
    rw [hw, hadd]
    exact dictGet_dictInsert_self _ _ _
  · simp [Conversation.add_message, hu]
  · simp [Conversation.add_message]

theorem execute_tools_step_length (registry : ToolRegistry)
    (jsonLoads : JsonLoads) (pn : String) (tc : ToolCallShape)
    (res : List PyDict) :
    (execute_tools_step registry jsonLoads pn tc res).length ≤ res.length + 1 := by
  unfold execute_tools_step
  split
  · simp
  · split
    · split <;> simp
    · simp

theorem execute_tools_loop_length (registry : ToolRegistry)
    (jsonLoads : JsonLoads) (pn : String) (tcs : List ToolCallShape)
    (res : List PyDict) :
    (execute_tools_loop registry jsonLoads pn tcs res).length
      ≤ res.length + tcs.length := by
  induction tcs generalizing res with
  | nil => simp [execute_tools_loop]
  | cons tc rest ih =>
      rw [execute_tools_loop]
      calc (execute_tools_loop registry jsonLoads pn rest
              (execute_tools_step registry jsonLoads pn tc res)).length
          ≤ (execute_tools_step registry jsonLoads pn tc res).length + rest.length :=
            ih _
        _ ≤ res.length + 1 + rest.length := by
            have := execute_tools_step_length registry jsonLoads pn tc res
            omega
        _ = res.length + (tc :: rest).length := by simp; omega

theorem execute_tools_length (registry : ToolRegistry) (jsonLoads : JsonLoads)
    (pn : String) (tcs : List ToolCallShape) :
    (execute_tools registry jsonLoads pn tcs).length ≤ tcs.length := by
  simpa [execute_tools] using
    execute_tools_loop_length registry jsonLoads pn tcs []

theorem tryTurn_error_facts (cp : ChatProcessor) (registry : ToolRegistry)
    (jsonLoads : JsonLoads) (w1 : World) (p : Provider)
    (messages : List PyDict) (tools : Option (List PyDict))
    (uid ch convid e u : String) (c : Conversation)
    (hc : dictGet w1.conv.conversations ch = some c)
    (hcmsgs : c.messages = [Message.mk Role.user u])
    (hcap2 : 2 ≤ w1.conv.max_messages_per_conversation)
    (hmax : ∀ msgs tls r, p.chat_completion msgs tls = Except.ok r →
        r.tool_calls.length + 2 ≤ w1.conv.max_messages_per_conversation)
    (herr : (cp.tryTurn registry jsonLoads w1 p messages tools uid ch convid).snd.snd.error
        = some e) :
    (cp.tryTurn registry jsonLoads w1 p messages tools uid ch convid).snd.snd.response
        = "Sorry, I encountered an error: " ++ e
    ∧ ∃ c', dictGet (cp.tryTurn registry jsonLoads w1 p messages tools uid ch convid).fst.conv.conversations ch
          = some c'
        ∧ Message.mk Role.user u ∈ c'.messages
        ∧ Message.mk Role.assistant ("Sorry, I encountered an error: " ++ e)
            ∈ c'.messages := by
  match hchat : p.chat_completion messages tools with
  | Except.error e0 =>
      have hrun : cp.tryTurn registry jsonLoads w1 p messages tools uid ch convid
          = cp.errorReturn w1 uid ch e0 := by
        unfold ChatProcessor.tryTurn
        rw [hchat]
      rw [hrun] at herr ⊢
      have hfacts := errorReturn_facts cp w1 uid ch e0 u c hc
        (by rw [hcmsgs]; simpa using hcap2) (by rw [hcmsgs]; simp)
      have he : e0 = e := by
        have h2 := hfacts.2.1
        rw [herr] at h2
        exact (Option.some.inj h2).symm
      subst he
      exact ⟨hfacts.1, hfacts.2.2⟩
  | Except.ok response =>
      by_cases hempty : response.tool_calls.isEmpty
      · have hrun : cp.tryTurn registry jsonLoads w1 p messages tools uid ch convid
            = cp.finishReturn w1 uid ch response convid := by
          unfold ChatProcessor.tryTurn
          rw [hchat]
          dsimp only
          rw [if_pos hempty]
        rw [hrun] at herr
        simp [ChatProcessor.finishReturn] at herr
      · have hklen : (execute_tools registry jsonLoads cp.current_provider
            response.tool_calls).length + 2
              ≤ w1.conv.max_messages_per_conversation := by
          have h1 := execute_tools_length registry jsonLoads cp.current_provider
            response.tool_calls
          have h2 := hmax messages tools response hchat
          omega
        obtain ⟨hpers, hpcap⟩ := persistToolResults_lookup
          (execute_tools registry jsonLoads cp.current_provider response.tool_calls)
          w1.conv uid ch c hc
        have hcmem : Message.mk Role.user u ∈
            ({ c with messages := c.messages
                ++ (execute_tools registry jsonLoads cp.current_provider
                    response.tool_calls).map toolMsgOf } : Conversation).messages := by
          rw [hcmsgs]
          simp
        have hclen : ({ c with messages := c.messages
            ++ (execute_tools registry jsonLoads cp.current_provider
                response.tool_calls).map toolMsgOf } : Conversation).messages.length + 1
            ≤ (persistToolResults w1.conv uid ch
                (execute_tools registry jsonLoads cp.current_provider
                  response.tool_calls)).max_messages_per_conversation := by
          rw [hpcap]
          simp [hcmsgs]
          omega
        match hreb : rebuildMessages messages response.content
            response.tool_calls
            (execute_tools registry jsonLoads cp.current_provider
              response.tool_calls) with
        | Except.error e0 =>
            have hrun : cp.tryTurn registry jsonLoads w1 p messages tools uid ch convid
                = (applySwitchDirectives cp w1.user_agents uid ch
                    (execute_tools registry jsonLoads cp.current_provider
                      response.tool_calls)).fst.errorReturn
                    { w1 with
                        conv := persistToolResults w1.conv uid ch
                          (execute_tools registry jsonLoads cp.current_provider
                            response.tool_calls)
                        user_agents := (applySwitchDirectives cp w1.user_agents uid ch
                          (execute_tools registry jsonLoads cp.current_provider
                            response.tool_calls)).snd }
                    uid ch e0 := by
              unfold ChatProcessor.tryTurn
              rw [hchat]
              dsimp only
              rw [if_neg hempty, hreb]
            rw [hrun] at herr ⊢
            have hfacts := errorReturn_facts
              (applySwitchDirectives cp w1.user_agents uid ch
                (execute_tools registry jsonLoads cp.current_provider
                  response.tool_calls)).fst
              { w1 with
                  conv := persistToolResults w1.conv uid ch
                    (execute_tools registry jsonLoads cp.current_provider
                      response.tool_calls)
                  user_agents := (applySwitchDirectives cp w1.user_agents uid ch
                    (execute_tools registry jsonLoads cp.current_provider
                      response.tool_calls)).snd }
              uid ch e0 u
              ({ c with messages := c.messages
                  ++ (execute_tools registry jsonLoads cp.current_provider
                      response.tool_calls).map toolMsgOf })
              hpers hclen hcmem
            have he : e0 = e := by
              have h2 := hfacts.2.1
              rw [herr] at h2
              exact (Option.some.inj h2).symm
            subst he
            exact ⟨hfacts.1, hfacts.2.2⟩
        | Except.ok messages2 =>
            match hchat2 : p.chat_completion messages2 Option.none with
            | Except.error e0 =>
                have hrun : cp.tryTurn registry jsonLoads w1 p messages tools uid ch convid
                    = (applySwitchDirectives cp w1.user_agents uid ch
                        (execute_tools registry jsonLoads cp.current_provider
                          response.tool_calls)).fst.errorReturn
                        { w1 with
                            conv := persistToolResults w1.conv uid ch
                              (execute_tools registry jsonLoads cp.current_provider
                                response.tool_calls)
                            user_agents := (applySwitchDirectives cp w1.user_agents uid ch
                              (execute_tools registry jsonLoads cp.current_provider
                                response.tool_calls)).snd }
                        uid ch e0 := by
                  unfold ChatProcessor.tryTurn
                  rw [hchat]
                  dsimp only
                  rw [if_neg hempty, hreb]
                  dsimp only
                  rw [hchat2]
                rw [hrun] at herr ⊢
                have hfacts := errorReturn_facts
                  (applySwitchDirectives cp w1.user_agents uid ch
                    (execute_tools registry jsonLoads cp.current_provider
                      response.tool_calls)).fst
                  { w1 with
                      conv := persistToolResults w1.conv uid ch
                        (execute_tools registry jsonLoads cp.current_provider
                          response.tool_calls)
                      user_agents := (applySwitchDirectives cp w1.user_agents uid ch
                        (execute_tools registry jsonLoads cp.current_provider
                          response.tool_calls)).snd }
                  uid ch e0 u
                  ({ c with messages := c.messages
                      ++ (execute_tools registry jsonLoads cp.current_provider
                          response.tool_calls).map toolMsgOf })
                  hpers hclen hcmem
                have he : e0 = e := by
                  have h2 := hfacts.2.1
                  rw [herr] at h2
                  exact (Option.some.inj h2).symm
                subst he
                exact ⟨hfacts.1, hfacts.2.2⟩
            | Except.ok final_response =>
                have hrun : (cp.tryTurn registry jsonLoads w1 p messages tools uid ch convid).snd.snd.error
                    = Option.none := by
                  unfold ChatProcessor.tryTurn
                  rw [hchat]
                  dsimp only
                  rw [if_neg hempty, hreb]
                  dsimp only
                  rw [hchat2]
                  rfl
                rw [hrun] at herr
                exact Option.noConfusion herr

/-- C4: for a turn on a fresh channel with a resolved provider, whenever the
result carries an error (an exception during dispatch, the tool loop's
rebuild, or the redispatch), the response is the synthesized error text, and
the stored conversation contains both the user-tagged incoming message
(appended before dispatch) and the synthesized error-text assistant message.
The `hmax` hypothesis bounds the provider's tool-call batches by the
configured cap so the trim policy cannot evict the user message. -/
theorem error_turn_persists_user_and_error
    (cp : ChatProcessor) (registry : ToolRegistry) (jsonLoads : JsonLoads)
    (w : World) (msg uid ch : String) (ut : Bool) (ts : String)
    (p : Provider) (e : String)
    (hp : (dictGet cp.providers cp.current_provider).bind id = some p)
    (hnn : ¬cp.current_provider = "none")
    (hfresh : dictGet w.conv.conversations ch = Option.none)
    (hcap2 : 2 ≤ w.conv.max_messages_per_conversation)
    (hmax : ∀ msgs tls r, p.chat_completion msgs tls = Except.ok r →
        r.tool_calls.length + 2 ≤ w.conv.max_messages_per_conversation)
    (herr : (cp.process_message registry jsonLoads w msg uid ch ut ts).snd.snd.error
        = some e) :
    (cp.process_message registry jsonLoads w msg uid ch ut ts).snd.snd.response
        = "Sorry, I encountered an error: " ++ e
    ∧ ∃ c', dictGet (cp.process_message registry jsonLoads w msg uid ch ut ts).fst.conv.conversations ch
          = some c'
        ∧ Message.mk Role.user ("[" ++ uid ++ "]: " ++ msg) ∈ c'.messages
        ∧ Message.mk Role.assistant ("Sorry, I encountered an error: " ++ e)
            ∈ c'.messages := by
  have hne : cp.providers.isEmpty = false := by
    cases hd : cp.providers with
    | nil => rw [hd] at hp; simp [dictGet] at hp
    | cons a l => rfl
  have hbeq : (cp.current_provider == "none") = false := by
    simp [hnn]
  have hcond : ¬((cp.providers.isEmpty || cp.current_provider == "none"
      || ((dictGet cp.providers cp.current_provider).bind id).isNone) = true) := by
    simp [hne, hbeq]
    obtain ⟨x, hx1, hx2⟩ := Option.bind_eq_some.mp hp
    have hx : x = some p := hx2
    exact ⟨x, hx1, by rw [hx]; simp⟩
  have hfreshc := add_user_message_fresh w.conv uid ch msg cp.current_provider
    p.model ts hfresh
  unfold ChatProcessor.process_message at herr ⊢
  rw [if_neg hcond, hp] at herr ⊢
  dsimp only at herr ⊢
  rw [hfreshc] at herr ⊢
  dsimp only at herr ⊢
  exact tryTurn_error_facts _ _ _ _ _ _ _ uid ch _ e
    ("[" ++ uid ++ "]: " ++ msg)
    (freshUserConv uid ch msg cp.current_provider p.model ts)
    (dictGet_dictInsert_self _ _ _) rfl hcap2 hmax herr

/-- C4 witness: a provider whose dispatch always raises `boom`; the turn
returns the synthesized error result and the store holds the user and error
messages. -/
theorem error_turn_persists_user_and_error_witness :
    (cpFail.process_message [] exJsonNone exWorld0 "hi" "u1" "c9" true "t0").snd.snd.response
        = "Sorry, I encountered an error: " ++ "boom"
    ∧ ∃ c', dictGet (cpFail.process_message [] exJsonNone exWorld0 "hi" "u1" "c9" true "t0").fst.conv.conversations "c9"
          = some c'
        ∧ Message.mk Role.user ("[" ++ "u1" ++ "]: " ++ "hi") ∈ c'.messages
        ∧ Message.mk Role.assistant ("Sorry, I encountered an error: " ++ "boom")
            ∈ c'.messages :=
  error_turn_persists_user_and_error cpFail [] exJsonNone exWorld0 "hi" "u1" "c9"
    true "t0" provFail "boom" rfl (by decide) rfl (by decide)
    (fun _ _ _ hh => Except.noConfusion hh) rfl

theorem execute_tools_loop_objShaped (registry : ToolRegistry)
    (jsonLoads : JsonLoads) (tcs : List ToolCallShape) (res : List PyDict)
    (hsh : ∀ tc ∈ tcs, tc.objShaped = true ∧ (jsonLoads tc.shapeArgs).isOk = true) :
    execute_tools_loop registry jsonLoads "openai" tcs res
      = res ++ tcs.filterMap (execEntry registry jsonLoads) := by
  induction tcs generalizing res with
  | nil => simp [execute_tools_loop]
  | cons tc rest ih =>
      obtain ⟨hshape, hparse⟩ := hsh tc (by simp)
      have hrest : ∀ tc' ∈ rest, tc'.objShaped = true
          ∧ (jsonLoads tc'.shapeArgs).isOk = true :=
        fun tc' h' => hsh tc' (by simp [h'])
      obtain ⟨args, hargs⟩ : ∃ a, jsonLoads tc.shapeArgs = Except.ok a := by
        match hj : jsonLoads tc.shapeArgs with
        | Except.ok a => exact ⟨a, rfl⟩
        | Except.error s => rw [hj] at hparse; simp [Except.isOk, Except.toBool] at hparse
      have hstep : execute_tools_step registry jsonLoads "openai" tc res
          = res ++ (execEntry registry jsonLoads tc).toList := by
        match tc with
        | ToolCallShape.objDirect n a (some i) =>
            simp only [ToolCallShape.shapeArgs] at hargs
            unfold execute_tools_step parse_tool_call
            simp only [beq_self_eq_true, if_true, hargs]
            unfold execEntry
            simp only [ToolCallShape.shapeArgs, ToolCallShape.shapeName,
              ToolCallShape.shapeId, hargs]
            match hlook : dictGet registry n with
            | Option.none => simp [toolRegistryGet, hlook, bind, Except.bind]
            | some t =>
                match hex : t.execute args with
                | Except.error e =>
                    simp [toolRegistryGet, hlook, hex, bind, Except.bind]
                | Except.ok r =>
                    simp [toolRegistryGet, hlook, hex, bind, Except.bind]
        | ToolCallShape.objFunc n a (some i) =>
            simp only [ToolCallShape.shapeArgs] at hargs
            unfold execute_tools_step parse_tool_call
            simp only [beq_self_eq_true, if_true, hargs]
            unfold execEntry
            simp only [ToolCallShape.shapeArgs, ToolCallShape.shapeName,
              ToolCallShape.shapeId, hargs]
            match hlook : dictGet registry n with
            | Option.none => simp [toolRegistryGet, hlook, bind, Except.bind]
            | some t =>
                match hex : t.execute args with
                | Except.error e =>
                    simp [toolRegistryGet, hlook, hex, bind, Except.bind]
                | Except.ok r =>
                    simp [toolRegistryGet, hlook, hex, bind, Except.bind]
        | ToolCallShape.objDirect n a Option.none =>
            simp [ToolCallShape.objShaped] at hshape
        | ToolCallShape.objFunc n a Option.none =>
            simp [ToolCallShape.objShaped] at hshape
        | ToolCallShape.dictCall d =>
            simp [ToolCallShape.objShaped] at hshape
      rw [execute_tools_loop, hstep, ih _ hrest]
      cases hentry : execEntry registry jsonLoads tc <;>
        simp [hentry, List.filterMap_cons]

theorem execEntry_no_metadata (registry : ToolRegistry) (jsonLoads : JsonLoads)
    (tc : ToolCallShape) (r : PyDict)
    (h : execEntry registry jsonLoads tc = some r) :
    dictGet r "metadata" = Option.none := by
  unfold execEntry at h
  split at h
  · exact Option.noConfusion h
  · split at h
    · exact Option.noConfusion h
    · split at h
      · exact Option.noConfusion h
      · rw [Option.some.inj h.symm]
        exact dictGet_result_entry_no_metadata _ _ _

theorem filterMap_execEntry_no_metadata (registry : ToolRegistry)
    (jsonLoads : JsonLoads) (tcs : List ToolCallShape) :
    ∀ r ∈ tcs.filterMap (execEntry registry jsonLoads),
      dictGet r "metadata" = Option.none := by
  intro r hr
  obtain ⟨tc, _, h⟩ := List.mem_filterMap.mp hr
  exact execEntry_no_metadata registry jsonLoads tc r h

theorem rebuildToolCallEntries_objShaped (tcs : List ToolCallShape) (i : Nat)
    (h : ∀ tc ∈ tcs, tc.objShaped = true) :
    ∃ es, rebuildToolCallEntries i tcs = Except.ok es := by
  induction tcs generalizing i with
  | nil => exact ⟨[], rfl⟩
  | cons tc rest ih =>
      obtain ⟨es, hes⟩ := ih (i + 1) (fun tc' h' => h tc' (by simp [h']))
      match tc with
      | ToolCallShape.objDirect n a (some j) =>
          exact ⟨_, by rw [rebuildToolCallEntries, rebuildToolCallEntry]
                       rw [hes]
                       rfl⟩
      | ToolCallShape.objFunc n a (some j) =>
          exact ⟨_, by rw [rebuildToolCallEntries, rebuildToolCallEntry]
                       rw [hes]
                       rfl⟩
      | ToolCallShape.objDirect n a Option.none =>
          simp [ToolCallShape.objShaped] at h
      | ToolCallShape.objFunc n a Option.none =>
          simp [ToolCallShape.objShaped] at h
      | ToolCallShape.dictCall d =>
          simp [ToolCallShape.objShaped] at h

theorem rebuildMessages_objShaped (messages : List PyDict) (content : String)
    (tcs : List ToolCallShape) (trs : List PyDict)
    (h : ∀ tc ∈ tcs, tc.objShaped = true) :
    ∃ msgs2, rebuildMessages messages content tcs trs = Except.ok msgs2 := by
  obtain ⟨es, hes⟩ := rebuildToolCallEntries_objShaped tcs 0 h
  exact ⟨_, by rw [rebuildMessages, hes]; rfl⟩

theorem finishReturn_facts (cp : ChatProcessor) (w : World)
    (uid ch : String) (resp : ChatCompletionResult) (convid : String)
    (c : Conversation)
    (hc : dictGet w.conv.conversations ch = some c)
    (hlen : c.messages.length + 1 ≤ w.conv.max_messages_per_conversation) :
    (cp.finishReturn w uid ch resp convid).snd.snd.error = Option.none
    ∧ (cp.finishReturn w uid ch resp convid).snd.snd.response = resp.content
    ∧ dictGet (cp.finishReturn w uid ch resp convid).fst.conv.conversations ch
        = some (c.add_message Role.assistant resp.content) := by
  have hadd := add_ai_response_no_trim w.conv uid ch resp.content c hc hlen
  refine ⟨rfl, rfl, ?_⟩
  have hw : (cp.finishReturn w uid ch resp convid).fst.conv
      = (w.conv.add_ai_response uid ch resp.content).fst := rfl
  rw [hw, hadd]
  exact dictGet_dictInsert_self _ _ _

/-- C8 (amended): for a batch of attribute-style (object) tool calls with
parseable arguments, as the OpenAI client returns them, a call naming an
unregistered tool or whose execution raises is skipped (contributes no
result) while every remaining call is processed — `_execute_tools` returns
exactly the successful calls' entries, in order — and the turn completes
with a non-error result carrying the redispatch content, the store holding
the user message, one `tool` message per successful entry, and the final
assistant message.  Dict-shaped batches instead abort the rebuild (see the
counterexample). -/
theorem tool_failures_skipped_turn_completes
    (cp : ChatProcessor) (registry : ToolRegistry) (jsonLoads : JsonLoads)
    (w : World) (msg uid ch ts : String) (p : Provider)
    (r1 r2 : ChatCompletionResult)
    (hcur : cp.current_provider = "openai")
    (hp : dictGet cp.providers "openai" = some (some p))
    (hfresh : dictGet w.conv.conversations ch = Option.none)
    (hchat1 : ∀ msgs tls, ¬tls = Option.none →
        p.chat_completion msgs tls = Except.ok r1)
    (hchat2 : ∀ msgs, p.chat_completion msgs Option.none = Except.ok r2)
    (hnames : ¬w.am.get_user_tools w.user_agents uid ch = [])
    (havail : ¬(w.am.get_user_tools w.user_agents uid ch).filterMap
        (fun n => dictGet registry n) = [])
    (htc : ¬r1.tool_calls = [])
    (hsh : ∀ tc ∈ r1.tool_calls, tc.objShaped = true
        ∧ (jsonLoads tc.shapeArgs).isOk = true)
    (hcap : r1.tool_calls.length + 2 ≤ w.conv.max_messages_per_conversation) :
    execute_tools registry jsonLoads "openai" r1.tool_calls
        = r1.tool_calls.filterMap (execEntry registry jsonLoads)
    ∧ (cp.process_message registry jsonLoads w msg uid ch true ts).snd.snd.error
        = Option.none
    ∧ (cp.process_message registry jsonLoads w msg uid ch true ts).snd.snd.response
        = r2.content
    ∧ ∃ c', dictGet (cp.process_message registry jsonLoads w msg uid ch true ts).fst.conv.conversations ch
          = some c'
        ∧ c'.messages
            = Message.mk Role.user ("[" ++ uid ++ "]: " ++ msg)
              :: ((r1.tool_calls.filterMap (execEntry registry jsonLoads)).map toolMsgOf
                  ++ [Message.mk Role.assistant r2.content]) := by
  have hexec : execute_tools registry jsonLoads "openai" r1.tool_calls
      = r1.tool_calls.filterMap (execEntry registry jsonLoads) := by
    unfold execute_tools
    rw [execute_tools_loop_objShaped registry jsonLoads r1.tool_calls [] hsh]
    rfl
  refine ⟨hexec, ?_⟩
  have hbind : (dictGet cp.providers cp.current_provider).bind id = some p := by
    rw [hcur, hp]; rfl
  have hne : cp.providers.isEmpty = false := by
    cases hd : cp.providers with
    | nil => rw [hd] at hp; simp [dictGet] at hp
    | cons a l => rfl
  have hbeq : (cp.current_provider == "none") = false := by
    rw [hcur]; rfl
  have hcond : ¬((cp.providers.isEmpty || cp.current_provider == "none"
      || ((dictGet cp.providers cp.current_provider).bind id).isNone) = true) := by
    simp [hne, hbeq]
    exact ⟨some p, by rw [hcur]; exact hp, by simp⟩
  have hfreshc := add_user_message_fresh w.conv uid ch msg cp.current_provider
    p.model ts hfresh
  have hnames' : (w.am.get_user_tools w.user_agents uid ch).isEmpty = false := by
    cases hg : w.am.get_user_tools w.user_agents uid ch with
    | nil => exact absurd hg hnames
    | cons a l => rfl
  have havail' : ((w.am.get_user_tools w.user_agents uid ch).filterMap
      (fun n => dictGet registry n)).isEmpty = false := by
    cases hg : (w.am.get_user_tools w.user_agents uid ch).filterMap
        (fun n => dictGet registry n) with
    | nil => exact absurd hg havail
    | cons a l => rfl
  have hempty1 : r1.tool_calls.isEmpty = false := by
    cases hg : r1.tool_calls with
    | nil => exact absurd hg htc
    | cons a l => rfl
  unfold ChatProcessor.process_message
  rw [if_neg hcond, hbind]
  try dsimp only
  rw [hfreshc]
  try dsimp only
  unfold ChatProcessor.tryTurn
  rw [hnames', havail']
  try dsimp only
  rw [hchat1 _ _ (by simp)]
  try dsimp only
  rw [hempty1]
  try dsimp only
  rw [hcur, hexec]
  rw [applySwitchDirectives_no_metadata _ _ _ _ _
    (filterMap_execEntry_no_metadata registry jsonLoads r1.tool_calls)]
  try dsimp only
  obtain ⟨msgs2, hreb⟩ := rebuildMessages_objShaped
    (ChatProcessor.prepare_messages cp w.am w.user_agents msg
      (ConversationManager.get_conversation_context _ uid ch Option.none) uid ch)
    r1.content r1.tool_calls
    (r1.tool_calls.filterMap (execEntry registry jsonLoads))
    (fun tc h' => (hsh tc h').1)
  rw [hreb]
  try dsimp only
  rw [hchat2]
  try dsimp only
  have hlook1 : dictGet (dictInsert w.conv.conversations ch (freshUserConv uid ch msg "openai" p.model ts)) ch
      = some (freshUserConv uid ch msg "openai" p.model ts) :=
    dictGet_dictInsert_self _ _ _
  obtain ⟨hpers, hpcap⟩ := persistToolResults_lookup
    (r1.tool_calls.filterMap (execEntry registry jsonLoads))
    ({ w.conv with conversations := dictInsert w.conv.conversations ch (freshUserConv uid ch msg "openai" p.model ts) })
    uid ch (freshUserConv uid ch msg "openai" p.model ts)
    (by exact hlook1)
  have hkk : (r1.tool_calls.filterMap (execEntry registry jsonLoads)).length
      ≤ r1.tool_calls.length := List.length_filterMap_le _ _
  have hlen2 : ({ freshUserConv uid ch msg "openai" p.model ts with
      messages := (freshUserConv uid ch msg "openai" p.model ts).messages
        ++ (r1.tool_calls.filterMap (execEntry registry jsonLoads)).map toolMsgOf } : Conversation).messages.length + 1
      ≤ (persistToolResults ({ w.conv with conversations := dictInsert w.conv.conversations ch (freshUserConv uid ch msg "openai" p.model ts) }) uid ch (r1.tool_calls.filterMap (execEntry registry jsonLoads))).max_messages_per_conversation := by
    rw [hpcap]
    simp [freshUserConv]
    omega
  refine ⟨?_, ?_, ?_⟩
  · exact (finishReturn_facts _ _ _ _ _ _ _ hpers hlen2).1
  · exact (finishReturn_facts _ _ _ _ _ _ _ hpers hlen2).2.1
  · refine ⟨_, (finishReturn_facts _ _ _ _ _ _ _ hpers hlen2).2.2, ?_⟩
    simp [Conversation.add_message, freshUserConv]

/-- C8 counterexample: a dict-shaped (Ollama-format) batch with one
unregistered, one raising and one succeeding tool call is executed with only
the success contributing a result — but the turn does NOT complete with a
non-error result: the assistant-message rebuild accesses
`tool_call.function` attributes on a plain dict, raising `AttributeError`,
so the turn returns an error result. -/
theorem dict_tool_batch_turn_errors :
    execute_tools exRegistryC8 exJsonObj "ollama" exDictBatch
      = [[("tool_call_id", PyVal.str "i1"),
          ("tool_name", PyVal.str "good"),
          ("result", PyVal.dict
            [("success", PyVal.bool true), ("data", PyVal.str "42"),
             ("error", PyVal.none), ("metadata", PyVal.none)])]]
    ∧ exDictTurn.snd.snd.error
        = some "AttributeError: dict object has no attribute function"
    ∧ exDictTurn.snd.snd.response
        = "Sorry, I encountered an error: "
          ++ "AttributeError: dict object has no attribute function"
    ∧ exDictTurn.snd.snd.error ≠ Option.none := by
  refine ⟨rfl, rfl, rfl, ?_⟩
  decide

/-- C8 witness: an object-shaped batch with one succeeding, one unregistered
and one raising call; the turn completes without error and persists exactly
the successful call's output. -/
theorem tool_failures_skipped_turn_completes_witness :
    execute_tools exRegistryC8 exJsonObj "openai" exR1w.tool_calls
        = exR1w.tool_calls.filterMap (execEntry exRegistryC8 exJsonObj)
    ∧ (cpC8w.process_message exRegistryC8 exJsonObj exWorldC8 "run tools" "u1" "c1" true "t0").snd.snd.error
        = Option.none
    ∧ (cpC8w.process_message exRegistryC8 exJsonObj exWorldC8 "run tools" "u1" "c1" true "t0").snd.snd.response
        = exR2w.content
    ∧ ∃ c', dictGet (cpC8w.process_message exRegistryC8 exJsonObj exWorldC8 "run tools" "u1" "c1" true "t0").fst.conv.conversations "c1"
          = some c'
        ∧ c'.messages
            = Message.mk Role.user ("[" ++ "u1" ++ "]: " ++ "run tools")
              :: ((exR1w.tool_calls.filterMap (execEntry exRegistryC8 exJsonObj)).map toolMsgOf
                  ++ [Message.mk Role.assistant exR2w.content]) :=
  tool_failures_skipped_turn_completes cpC8w exRegistryC8 exJsonObj exWorldC8
    "run tools" "u1" "c1" "t0" provC8w exR1w exR2w rfl rfl rfl
    (fun _ tls hne => by
      cases tls with
      | none => exact absurd rfl hne
      | some x => rfl)
    (fun _ => rfl)
    (by decide) (fun h => List.noConfusion h) (fun h => List.noConfusion h)
    (by decide) (by decide)
